import Mathlib

/-!
Verification of the nutrition-tracker meal-logging core.

The Python source (`src/nutrition_tracker`) is shallowly embedded:

* floats are modelled as rationals (`ℚ`); all arithmetic used by the code
  (scale, add, divide, truncate, banker's round) is exact on the inputs the
  claims mention;
* JSON-like context dicts are modelled as structures whose fields carry
  `Option` when the dict key may be absent or hold `None`;
* repositories (sessions, photos, meal logs/items, library, audit) are
  modelled as explicit state threaded through the transition functions;
* external providers (the FDC nutrition database, the library search ranking)
  are oracle function parameters; a provider call that may raise returns
  `Except Unit`;
* Python exceptions are `Except.error`; a `try/except` in the source is the
  corresponding `match` in the embedding;
* user-facing prompt texts are modelled by the inductive `Msg`, one
  constructor per distinct message template in the source, carrying the
  values the source interpolates; inline-keyboard rendering is presentation
  and is not modelled beyond the data each button carries.
-/

namespace NutritionTracker

/-- `domain/nutrition.py MacroProfile`: four macro values. -/
structure MacroProfile where
  calories : ℚ
  protein_g : ℚ
  fat_g : ℚ
  carbs_g : ℚ
deriving DecidableEq

/-- The all-zero profile `MacroProfile(0.0, 0.0, 0.0, 0.0)`. -/
def MacroProfile.zero : MacroProfile := ⟨0, 0, 0, 0⟩

/-- Python truthiness of an optional float: `None` and `0.0` are falsy. -/
def optRatTruthy : Option ℚ → Bool
  | none => false
  | some s => s != 0

/-- `services/meals.py _compute_portion_macros`. -/
def compute_portion_macros (base : MacroProfile) (grams : ℚ) (basis : String)
    (serving_size_g : Option ℚ) : MacroProfile :=
  if grams ≤ 0 then MacroProfile.zero
  else
    let factor :=
      if basis = "perServing" ∧ optRatTruthy serving_size_g
          ∧ 0 < serving_size_g.getD 0
      then grams / serving_size_g.getD 0
      else grams / 100
    ⟨base.calories * factor, base.protein_g * factor,
     base.fat_g * factor, base.carbs_g * factor⟩

/-- Value of a list of decimal digit characters. -/
def digitsToNat (ds : List Char) : ℕ :=
  ds.foldl (fun acc c => acc * 10 + (c.toNat - '0'.toNat)) 0

/-- Python `str.replace` worker: each step consumes at least one character,
so `fuel = s.length` never runs out. Structural recursion on the fuel keeps
the definition kernel-reducible. -/
def replaceFromAux (pat repl : List Char) : ℕ → List Char → List Char
  | 0, s => s
  | _, [] => []
  | fuel + 1, c :: rest =>
    if pat.isPrefixOf (c :: rest) ∧ pat ≠ [] then
      repl ++ replaceFromAux pat repl fuel (rest.drop (pat.length - 1))
    else c :: replaceFromAux pat repl fuel rest

/-- Python `str.replace`: replace every non-overlapping occurrence of `pat`
left to right (the core `String.replace` is opaque to the kernel, so the
replacement is spelled out on character lists). -/
def replaceFrom (pat repl : List Char) (s : List Char) : List Char :=
  replaceFromAux pat repl s.length s

/-- Python `str.strip` (whitespace at both ends). -/
def pyStrip (s : List Char) : List Char :=
  ((s.dropWhile Char.isWhitespace).reverse.dropWhile Char.isWhitespace).reverse

/-- Python `str.lower` (ASCII). -/
def pyLower (s : List Char) : List Char := s.map Char.toLower

/-- Python `str.split(sep)`: pieces between separator characters. -/
def splitList (p : Char → Bool) : List Char → List (List Char)
  | [] => [[]]
  | c :: rest =>
    match splitList p rest with
    | [] => [[c]]
    | h :: t => if p c then [] :: h :: t else (c :: h) :: t

/-- Model of CPython `float(str)` restricted to finite decimal literals:
optional sign, integer digits and/or a fractional part, optional decimal
exponent. (`inf`, `nan` and underscore separators are outside the model;
no input exercised by the claims uses them.) -/
def pyFloatChars (cs : List Char) : Option ℚ :=
  let sign : ℤ := match cs with
    | '-' :: _ => -1
    | _ => 1
  let cs := match cs with
    | '+' :: rest => rest
    | '-' :: rest => rest
    | rest => rest
  let intPart := cs.takeWhile Char.isDigit
  let cs := cs.dropWhile Char.isDigit
  let fracPart := match cs with
    | '.' :: rest => rest.takeWhile Char.isDigit
    | _ => []
  let cs := match cs with
    | '.' :: rest => rest.dropWhile Char.isDigit
    | rest => rest
  if intPart.isEmpty ∧ fracPart.isEmpty then none
  else
    let num : ℤ :=
      sign * (digitsToNat intPart * 10 ^ fracPart.length + digitsToNat fracPart)
    let den : ℕ := 10 ^ fracPart.length
    match cs with
    | [] => some (mkRat num den)
    | 'e' :: rest | 'E' :: rest =>
      let eneg : Bool := match rest with
        | '-' :: _ => true
        | _ => false
      let rest := match rest with
        | '+' :: r => r
        | '-' :: r => r
        | r => r
      let eDigits := rest.takeWhile Char.isDigit
      let rest := rest.dropWhile Char.isDigit
      if eDigits.isEmpty ∨ ¬ rest.isEmpty then none
      else
        let e := digitsToNat eDigits
        some (if eneg then mkRat num (den * 10 ^ e)
              else mkRat (num * 10 ^ e) den)
    | _ => none

/-- `sessions.py _parse_grams`: strip decorations, parse a float, keep the
truncation to `int` when the parsed value is positive. -/
def parse_grams (text : String) : Option ℤ :=
  let cleaned :=
    pyStrip (replaceFrom "g".data [] (replaceFrom "grams".data []
      (pyLower (pyStrip text.data))))
  match pyFloatChars cleaned with
  | none => none
  | some value => if 0 < value then some ⌊value⌋ else none

/-- `sessions.py _parse_macros`: exactly four space/comma-separated numbers. -/
def parse_macros (text : String) : Option (ℚ × ℚ × ℚ × ℚ) :=
  let parts := (splitList (fun c => c.isWhitespace)
    (replaceFrom ",".data " ".data text.data)).filter (fun p => ¬ p.isEmpty)
  match parts with
  | [a, b, c, d] =>
    match pyFloatChars a, pyFloatChars b, pyFloatChars c, pyFloatChars d with
    | some calories, some protein, some fat, some carbs =>
      some (calories, protein, fat, carbs)
    | _, _, _, _ => none
  | _ => none

/-- `sessions.py _parse_item_list`: split on commas, trim, drop empties. -/
def parse_item_list (text : String) : List String :=
  ((splitList (fun c => c = ',') text.data).map
    (fun cs => String.mk (pyStrip cs))).filter (fun s => ¬ s.data.isEmpty)

/-- Model of `str(int)` / `UUID(str)` round-tripping for ids: parse a decimal
natural (the core `String.toNat?` is opaque to the kernel). -/
def natFromString (s : String) : Option ℕ :=
  if s.data ≠ [] ∧ s.data.all Char.isDigit then some (digitsToNat s.data)
  else none

/-- Python `round` on rationals: nearest integer, ties to even. -/
def pyRound (q : ℚ) : ℤ :=
  let f := ⌊q⌋
  let frac := q - f
  if frac < 1/2 then f
  else if 1/2 < frac then f + 1
  else if f % 2 = 0 then f else f + 1

/-- Python `a or b` for an optional string: `None` and `""` are falsy. -/
def orStr (a : Option String) (b : String) : String :=
  match a with
  | some s => if s = "" then b else s
  | none => b

/-- The `nutrition_snapshot` dict stored on a meal item
(`services/meals.py _build_snapshots`); every key may be absent or `None`. -/
structure NutritionSnapshot where
  basis : Option String
  serving_size_g : Option ℚ
  calories : Option ℚ
  protein_g : Option ℚ
  fat_g : Option ℚ
  carbs_g : Option ℚ
  source_type : Option String
  source_ref : Option String
deriving DecidableEq

/-- `services/meals.py _macros_from_snapshot`. -/
def macros_from_snapshot (snapshot : NutritionSnapshot) :
    MacroProfile × String × Option ℚ :=
  (⟨snapshot.calories.getD 0, snapshot.protein_g.getD 0,
    snapshot.fat_g.getD 0, snapshot.carbs_g.getD 0⟩,
   orStr snapshot.basis "per100g",
   snapshot.serving_size_g)

/-- `domain/meals.py MealItemRecord`; UUIDs are modelled as naturals. -/
structure MealItemRecord where
  id : ℕ
  meal_log_id : ℕ
  food_id : Option ℕ
  name : String
  grams : ℚ
  calories : ℚ
  protein_g : ℚ
  fat_g : ℚ
  carbs_g : ℚ
  nutrition_snapshot : NutritionSnapshot
deriving DecidableEq

/-- `domain/stats.py MealLogRow`; the timestamp is an opaque natural. -/
structure MealLogRow where
  meal_id : ℕ
  logged_at : ℕ
  total_calories : ℚ
  total_protein_g : ℚ
  total_fat_g : ℚ
  total_carbs_g : ℚ
deriving DecidableEq

/-- `domain/meals.py MealLogDetail`. -/
structure MealLogDetail where
  id : ℕ
  logged_at : ℕ
  total_calories : ℚ
  total_protein_g : ℚ
  total_fat_g : ℚ
  total_carbs_g : ℚ
  items : List MealItemRecord
deriving DecidableEq

/-- State behind the `MealLogRepository` protocol: meal log rows and meal
item rows. -/
structure MealRepoState where
  logs : List MealLogRow
  items : List MealItemRecord
deriving DecidableEq

/-- Repository `get_meal_item`. -/
def get_meal_item (repo : MealRepoState) (meal_item_id : ℕ) :
    Option MealItemRecord :=
  repo.items.find? (fun it => it.id = meal_item_id)

/-- Repository `update_meal_item`: overwrite grams and macros of the row. -/
def update_meal_item (repo : MealRepoState) (meal_item_id : ℕ) (grams : ℚ)
    (macros : MacroProfile) : MealRepoState :=
  { repo with
    items := repo.items.map (fun it =>
      if it.id = meal_item_id then
        { it with
          grams := grams
          calories := macros.calories
          protein_g := macros.protein_g
          fat_g := macros.fat_g
          carbs_g := macros.carbs_g }
      else it) }

/-- Repository `list_meal_items`. -/
def list_meal_items (repo : MealRepoState) (meal_log_id : ℕ) :
    List MealItemRecord :=
  repo.items.filter (fun it => it.meal_log_id = meal_log_id)

/-- Repository `get_meal_log`. -/
def get_meal_log (repo : MealRepoState) (meal_log_id : ℕ) : Option MealLogRow :=
  repo.logs.find? (fun log => log.meal_id = meal_log_id)

/-- Repository `update_meal_log_totals`. -/
def update_meal_log_totals (repo : MealRepoState) (meal_log_id : ℕ)
    (totals : MacroProfile) : MealRepoState :=
  { repo with
    logs := repo.logs.map (fun log =>
      if log.meal_id = meal_log_id then
        { log with
          total_calories := totals.calories
          total_protein_g := totals.protein_g
          total_fat_g := totals.fat_g
          total_carbs_g := totals.carbs_g }
      else log) }

/-- `services/meals.py _sum_totals`. -/
def sum_totals (items : List MealItemRecord) : MacroProfile :=
  items.foldl
    (fun total item =>
      ⟨total.calories + item.calories, total.protein_g + item.protein_g,
       total.fat_g + item.fat_g, total.carbs_g + item.carbs_g⟩)
    MacroProfile.zero

/-- `services/meals.py MealLogService.get_meal_detail`. -/
def get_meal_detail (repo : MealRepoState) (meal_log_id : ℕ) :
    Option MealLogDetail :=
  match get_meal_log repo meal_log_id with
  | none => none
  | some log =>
    let items := list_meal_items repo meal_log_id
    some ⟨log.meal_id, log.logged_at, log.total_calories, log.total_protein_g,
          log.total_fat_g, log.total_carbs_g, items⟩

/-- `services/meals.py MealLogService.update_meal_item_grams`: recompute the
item from its frozen snapshot, persist it, re-sum the meal's items, persist
the totals and return the refreshed detail. The function takes no nutrition
provider: the recomputation uses only the stored snapshot. -/
def update_meal_item_grams (repo : MealRepoState) (meal_item_id : ℕ)
    (grams : ℚ) : MealRepoState × Option MealLogDetail :=
  match get_meal_item repo meal_item_id with
  | none => (repo, none)
  | some item =>
    let bms := macros_from_snapshot item.nutrition_snapshot
    let updated_macros := compute_portion_macros bms.1 grams bms.2.1 bms.2.2
    let repo1 := update_meal_item repo meal_item_id grams updated_macros
    let items := list_meal_items repo1 item.meal_log_id
    let totals := sum_totals items
    let repo2 := update_meal_log_totals repo1 item.meal_log_id totals
    match get_meal_log repo2 item.meal_log_id with
    | none => (repo2, none)
    | some log =>
      (repo2,
       some ⟨log.meal_id, log.logged_at, totals.calories, totals.protein_g,
             totals.fat_g, totals.carbs_g, items⟩)

/-- Session status constants from `services/sessions.py`. -/
def STATUS_AWAITING_CONFIRMATION : String := "AWAITING_CONFIRMATION"

def STATUS_AWAITING_ITEM_LIST : String := "AWAITING_ITEM_LIST"

def STATUS_AWAITING_ITEM_CONFIRMATION : String := "AWAITING_ITEM_CONFIRMATION"

def STATUS_AWAITING_ITEM_SELECTION : String := "AWAITING_ITEM_SELECTION"

def STATUS_AWAITING_MANUAL_NAME : String := "AWAITING_MANUAL_NAME"

def STATUS_AWAITING_MANUAL_STORE : String := "AWAITING_MANUAL_STORE"

def STATUS_AWAITING_MANUAL_BASIS : String := "AWAITING_MANUAL_BASIS"

def STATUS_AWAITING_MANUAL_SERVING : String := "AWAITING_MANUAL_SERVING"

def STATUS_AWAITING_MANUAL_MACROS : String := "AWAITING_MANUAL_MACROS"

def STATUS_AWAITING_PORTION_CHOICE : String := "AWAITING_PORTION_CHOICE"

def STATUS_AWAITING_MANUAL_GRAMS : String := "AWAITING_MANUAL_GRAMS"

def STATUS_AWAITING_SAVE : String := "AWAITING_SAVE"

def STATUS_AWAITING_EDIT_CHOICE : String := "AWAITING_EDIT_CHOICE"

def STATUS_AWAITING_EDIT_GRAMS : String := "AWAITING_EDIT_GRAMS"

def STATUS_EDIT_SELECT_ITEM : String := "EDIT_SELECT_ITEM"

def STATUS_EDIT_ENTER_GRAMS : String := "EDIT_ENTER_GRAMS"

def STATUS_CANCELLED : String := "CANCELLED"

def STATUS_COMPLETED : String := "COMPLETED"

/-- The 16 non-terminal statuses queried by the session repository
(`adapters/supabase_session_repository.py _ACTIVE_STATUSES`). -/
def ACTIVE_STATUSES : List String :=
  [STATUS_AWAITING_CONFIRMATION, STATUS_AWAITING_ITEM_LIST,
   STATUS_AWAITING_ITEM_CONFIRMATION, STATUS_AWAITING_ITEM_SELECTION,
   STATUS_AWAITING_MANUAL_NAME, STATUS_AWAITING_MANUAL_STORE,
   STATUS_AWAITING_MANUAL_BASIS, STATUS_AWAITING_MANUAL_SERVING,
   STATUS_AWAITING_MANUAL_MACROS, STATUS_AWAITING_PORTION_CHOICE,
   STATUS_AWAITING_MANUAL_GRAMS, STATUS_AWAITING_SAVE,
   STATUS_AWAITING_EDIT_CHOICE, STATUS_AWAITING_EDIT_GRAMS,
   STATUS_EDIT_SELECT_ITEM, STATUS_EDIT_ENTER_GRAMS]

/-- Every status constant the state machine writes. -/
def ALL_STATUSES : List String :=
  ACTIVE_STATUSES ++ [STATUS_COMPLETED, STATUS_CANCELLED]

/-- Python `a or b` for two optional strings: the first operand when truthy,
otherwise the second as-is. -/
def orOptStr (a b : Option String) : Option String :=
  match a with
  | some s => if s = "" then b else some s
  | none => b

/-- The `food` snapshot dict stored on an item spec
(`sessions.py _set_item_food`). -/
structure FoodSnap where
  name : Option String
  source_type : Option String
  food_id : Option String
  source_ref : Option String
  basis : Option String
  serving_size_g : Option ℚ
  calories : Option ℚ
  protein_g : Option ℚ
  fat_g : Option ℚ
  carbs_g : Option ℚ
  brand : Option String
  store : Option String
deriving DecidableEq

/-- The empty dict as a `food` value (`item.get("food") or {}`). -/
def FoodSnap.emptyDict : FoodSnap :=
  ⟨none, none, none, none, none, none, none, none, none, none, none, none⟩

/-- One entry of the context's `items` list: a vision-detected or declared
food item being resolved. Absent dict keys are `none`/`false`. -/
structure ItemSpec where
  label : Option String
  name : Option String
  confidence : Option ℚ
  estimated_grams_low : Option ℚ
  estimated_grams_high : Option ℚ
  grams : Option ℤ
  skipped : Bool
  food : Option FoodSnap
deriving DecidableEq

/-- The empty dict read as an item (`_current_item` out of range). -/
def ItemSpec.emptyDict : ItemSpec := ⟨none, none, none, none, none, none, false, none⟩

/-- `{"label": l}` (item-list fix-up and default item). -/
def ItemSpec.ofLabel (l : String) : ItemSpec :=
  ⟨some l, none, none, none, none, none, false, none⟩

/-- `domain/library.py LibraryFood`. -/
structure LibraryFood where
  id : ℕ
  user_id : ℕ
  name : String
  brand : Option String
  store : Option String
  source_type : String
  source_ref : Option String
  basis : String
  serving_size_g : Option ℚ
  calories : ℚ
  protein_g : ℚ
  fat_g : ℚ
  carbs_g : ℚ
  use_count : ℕ
  last_used_at : Option ℕ
deriving DecidableEq

/-- `domain/nutrition.py FoodSummary`. -/
structure FoodSummary where
  fdc_id : ℤ
  description : String
  brand_owner : Option String
  brand_name : Option String
  data_type : Option String
deriving DecidableEq

/-- `domain/nutrition.py FoodDetails`. -/
structure FoodDetails where
  summary : FoodSummary
  macros : MacroProfile
  serving_size_g : Option ℚ
deriving DecidableEq

/-- One candidate-option dict (`sessions.py _build_candidate_options` and the
manual food payload of `_finalize_manual_entry`). -/
structure CandidateOption where
  type : String
  label : String
  name : Option String
  brand : Option String
  store : Option String
  food_id : Option String
  source_type : Option String
  source_ref : Option String
  basis : Option String
  serving_size_g : Option ℚ
  calories : Option ℚ
  protein_g : Option ℚ
  fat_g : Option ℚ
  carbs_g : Option ℚ
  fdc_id : Option ℤ
deriving DecidableEq

/-- The synthetic `{"type": "manual", "label": "Enter manually"}` option. -/
def manualOption : CandidateOption :=
  { type := "manual", label := "Enter manually", name := none, brand := none,
    store := none, food_id := none, source_type := none, source_ref := none,
    basis := none, serving_size_g := none, calories := none, protein_g := none,
    fat_g := none, carbs_g := none, fdc_id := none }

/-- `sessions.py _format_library_food`: name · brand · store, truthy parts. -/
def format_library_food (food : LibraryFood) : String :=
  let parts := [food.name]
  let parts := match food.brand with
    | some b => if b = "" then parts else parts ++ [b]
    | none => parts
  let parts := match food.store with
    | some s => if s = "" then parts else parts ++ [s]
    | none => parts
  String.mk (List.intercalate " · ".data (parts.map String.data))

/-- `sessions.py _format_fdc_food`. -/
def format_fdc_food (summary : FoodSummary) : String :=
  match orOptStr summary.brand_owner summary.brand_name with
  | some brand =>
    if brand = "" then summary.description
    else summary.description ++ " · " ++ brand
  | none => summary.description

/-- `sessions.py _build_candidate_options`: library options, then external
(fdc) options, then the synthetic manual option. -/
def build_candidate_options (library : List LibraryFood)
    (fdc : List FoodSummary) : List CandidateOption :=
  (library.map (fun food =>
    { type := "library", label := format_library_food food,
      name := some food.name, brand := food.brand, store := food.store,
      food_id := some (toString food.id), source_type := some "library",
      source_ref := food.source_ref, basis := some food.basis,
      serving_size_g := food.serving_size_g, calories := some food.calories,
      protein_g := some food.protein_g, fat_g := some food.fat_g,
      carbs_g := some food.carbs_g, fdc_id := none }))
  ++ (fdc.map (fun summary =>
    { type := "fdc", label := format_fdc_food summary,
      name := some summary.description, brand := none, store := none,
      food_id := none, source_type := some "fdc", source_ref := none,
      basis := none, serving_size_g := none, calories := none,
      protein_g := none, fat_g := none, carbs_g := none,
      fdc_id := some summary.fdc_id }))
  ++ [manualOption]

/-- The manual-entry draft dict (`context["manual"]`). -/
structure ManualDraft where
  target : Option String
  item_index : Option ℤ
  name : Option String
  store : Option String
  basis : Option String
  serving_size_g : Option ℤ
deriving DecidableEq

/-- The empty manual draft: the default the source supplies when the
`manual` key is absent. -/
def ManualDraft.empty : ManualDraft := ⟨none, none, none, none, none, none⟩

/-- One entry of `context["resolved_items"]`
(`sessions.py _build_resolved_items`); all keys are written at build time,
values mirroring the item's `food` dict. -/
structure ResolvedItem where
  item_index : ℕ
  name : String
  grams : ℤ
  source_type : Option String
  source_ref : Option String
  food_id : Option String
  basis : Option String
  serving_size_g : Option ℚ
  calories : Option ℚ
  protein_g : Option ℚ
  fat_g : Option ℚ
  carbs_g : Option ℚ
  brand : Option String
  store : Option String
deriving DecidableEq

/-- One entry of `context["edit_items"]` (`sessions.py start_edit_session`). -/
structure EditItem where
  id : Option String
  name : Option String
  grams : Option ℚ
  calories : Option ℚ
  protein_g : Option ℚ
  fat_g : Option ℚ
  carbs_g : Option ℚ
deriving DecidableEq

/-- The session context blob. Keys that may be absent from the underlying
dict are modelled by the default the source supplies on read:
`items`/`resolved_items`/`candidate_options`/`edit_items` default to `[]`,
`current_index` to `0`, `edit_index` to `-1`, `manual` to the empty draft,
and the remaining optional keys to `none`. -/
structure Ctx where
  flow : String
  user_id : Option ℕ
  items : List ItemSpec
  current_index : ℤ
  resolved_items : List ResolvedItem
  manual : ManualDraft
  candidate_options : List CandidateOption
  edit_index : ℤ
  edit_items : List EditItem
  edit_item_id : Option String
  edit_item_name : Option String
  meal_id : Option ℕ
deriving DecidableEq

/-- `sessions.py _current_item`: the item under the cursor, or the empty
dict when the index is out of range. -/
def current_item (context : Ctx) : ItemSpec :=
  if 0 ≤ context.current_index
      ∧ context.current_index < (context.items.length : ℤ) then
    (context.items.get? context.current_index.toNat).getD ItemSpec.emptyDict
  else ItemSpec.emptyDict

/-- `sessions.py _item_label`. -/
def item_label (item : ItemSpec) : String :=
  orStr item.label (orStr item.name "item")

/-- `sessions.py _current_item_label`. -/
def current_item_label (context : Ctx) : String :=
  item_label (current_item context)

/-- `sessions.py _estimate_grams`: banker's-rounded midpoint of the gram
range when the high bound is a positive number, else the rounded low bound
when positive, else nothing. -/
def estimate_grams (item : ItemSpec) : Option ℤ :=
  match item.estimated_grams_low, item.estimated_grams_high with
  | some low, some high =>
    if 0 < high then some (pyRound ((low + high) / 2))
    else if 0 < low then some (pyRound low)
    else none
  | some low, none => if 0 < low then some (pyRound low) else none
  | none, _ => none

/-- Replace the item at a position in the item list. -/
def setItemAt (items : List ItemSpec) (i : ℕ) (f : ItemSpec → ItemSpec) :
    List ItemSpec :=
  items.mapIdx (fun j it => if j = i then f it else it)

/-- `sessions.py _record_current_grams` (mutating the empty dict returned by
an out-of-range `_current_item` has no effect on the context). -/
def record_current_grams (context : Ctx) (grams : ℤ) : Ctx :=
  if 0 ≤ context.current_index
      ∧ context.current_index < (context.items.length : ℤ) then
    { context with
      items := setItemAt context.items context.current_index.toNat
        (fun it => { it with grams := some grams }) }
  else context

/-- `sessions.py _mark_skipped`. -/
def mark_skipped (context : Ctx) : Ctx :=
  if 0 ≤ context.current_index
      ∧ context.current_index < (context.items.length : ℤ) then
    { context with
      items := setItemAt context.items context.current_index.toNat
        (fun it => { it with skipped := true }) }
  else context

/-- The `food` dict built by `sessions.py _set_item_food` from an option. -/
def food_of_option (option : CandidateOption) : FoodSnap :=
  { name := some (orStr option.name (orStr (some option.label) "item"))
    source_type := orOptStr option.source_type (some option.type)
    food_id := option.food_id
    source_ref := option.source_ref
    basis := some (orStr option.basis "per100g")
    serving_size_g := option.serving_size_g
    calories := option.calories
    protein_g := option.protein_g
    fat_g := option.fat_g
    carbs_g := option.carbs_g
    brand := option.brand
    store := option.store }

/-- `sessions.py _set_item_food`. -/
def set_item_food (context : Ctx) (option : CandidateOption) : Ctx :=
  if 0 ≤ context.current_index
      ∧ context.current_index < (context.items.length : ℤ) then
    { context with
      items := setItemAt context.items context.current_index.toNat
        (fun it => { it with food := some (food_of_option option) }) }
  else context

/-- `sessions.py _build_resolved_items`: the non-skipped items holding both a
`food` dict and a grams value. -/
def build_resolved_items (context : Ctx) : List ResolvedItem :=
  (context.items.mapIdx (fun idx item =>
    if item.skipped then none
    else match item.food, item.grams with
    | some food, some grams =>
      some { item_index := idx
             name := orStr food.name (orStr item.label "item")
             grams := grams
             source_type := food.source_type
             source_ref := food.source_ref
             food_id := food.food_id
             basis := food.basis
             serving_size_g := food.serving_size_g
             calories := food.calories
             protein_g := food.protein_g
             fat_g := food.fat_g
             carbs_g := food.carbs_g
             brand := food.brand
             store := food.store }
    | _, _ => none)).filterMap id

/-- `sessions.py _apply_edit_grams`: overwrite the chosen resolved item's
grams and keep the backing item spec in sync. -/
def apply_edit_grams (context : Ctx) (grams : ℤ) : Ctx :=
  let index := context.edit_index
  if 0 ≤ index ∧ index < (context.resolved_items.length : ℤ) then
    match context.resolved_items.get? index.toNat with
    | some item =>
      let resolved := context.resolved_items.mapIdx (fun j it =>
        if j = index.toNat then { it with grams := grams } else it)
      let items :=
        if item.item_index < context.items.length then
          setItemAt context.items item.item_index
            (fun it => { it with grams := some grams })
        else context.items
      { context with resolved_items := resolved, items := items }
    | none => context
  else context

/-- `sessions.py _edit_item_id`. -/
def edit_item_id_at (context : Ctx) (index : ℤ) : Option String :=
  if 0 ≤ index ∧ index < (context.edit_items.length : ℤ) then
    (context.edit_items.get? index.toNat).bind (fun it => it.id)
  else none

/-- `sessions.py _edit_item_name`. -/
def edit_item_name_at (context : Ctx) (index : ℤ) : String :=
  if 0 ≤ index ∧ index < (context.edit_items.length : ℤ) then
    (((context.edit_items.get? index.toNat).bind (fun it => it.name)).getD "item")
  else "item"

/-- The before/after payload of a grams audit event. -/
structure AuditSnapshot where
  name : Option String
  grams : Option ℚ
  calories : Option ℚ
  protein_g : Option ℚ
  fat_g : Option ℚ
  carbs_g : Option ℚ
deriving DecidableEq

/-- `sessions.py _edit_item_snapshot`: the first edit item whose stored id
matches `str(item_id)`. -/
def edit_item_snapshot (context : Ctx) (item_id : ℕ) : Option AuditSnapshot :=
  (context.edit_items.find? (fun it => it.id = some (toString item_id))).map
    (fun it => ⟨it.name, it.grams, it.calories, it.protein_g, it.fat_g,
                it.carbs_g⟩)

/-- `sessions.py _detail_item_snapshot`. -/
def detail_item_snapshot (detail : MealLogDetail) (item_id : ℕ) :
    Option AuditSnapshot :=
  (detail.items.find? (fun it => it.id = item_id)).map
    (fun it => ⟨some it.name, some it.grams, some it.calories,
                some it.protein_g, some it.fat_g, some it.carbs_g⟩)

/-- `domain/sessions.py SessionRecord`. -/
structure SessionRec where
  id : ℕ
  user_id : ℕ
  photo_id : Option ℕ
  status : String
  context : Ctx
deriving DecidableEq

/-- One persisted audit event (`services/audit.py record_event`). -/
structure AuditEvent where
  user_id : ℕ
  entity_type : String
  entity_id : ℕ
  event_type : String
  before : Option AuditSnapshot
  after : Option AuditSnapshot
deriving DecidableEq

/-- The persisted state all repositories share: session rows, photo rows,
library foods, audit events, meal logs/items, and a fresh-id counter for
created rows. -/
structure SvcState where
  sessions : List SessionRec
  photos : List ℕ
  library : List LibraryFood
  audit_events : List AuditEvent
  repo : MealRepoState
deriving DecidableEq

/-- Next fresh row id (photo/session/library rows never collide). -/
def SvcState.fresh (st : SvcState) : ℕ :=
  st.sessions.length + st.photos.length + st.library.length + 1000000

/-- Photo repository `create_photo`. -/
def create_photo (st : SvcState) : SvcState × ℕ :=
  ({ st with photos := st.photos ++ [st.fresh] }, st.fresh)

/-- Photo repository `delete_photo`. -/
def delete_photo (st : SvcState) (photo_id : ℕ) : SvcState :=
  { st with photos := st.photos.filter (fun p => p ≠ photo_id) }

/-- Session repository `create_session`. -/
def create_session (st : SvcState) (user_id : ℕ) (photo_id : Option ℕ)
    (status : String) (context : Ctx) : SvcState × SessionRec :=
  let s : SessionRec := ⟨st.fresh, user_id, photo_id, status, context⟩
  ({ st with sessions := st.sessions ++ [s] }, s)

/-- Session repository `get_session`. -/
def get_session (st : SvcState) (session_id : ℕ) : Option SessionRec :=
  st.sessions.find? (fun s => s.id = session_id)

/-- Session repository `get_active_session`: the most recently created
session of the user whose status is in `ACTIVE_STATUSES`. -/
def get_active_session (st : SvcState) (user_id : ℕ) : Option SessionRec :=
  (st.sessions.filter (fun s =>
    s.user_id = user_id ∧ s.status ∈ ACTIVE_STATUSES)).getLast?

/-- Session repository `update_session`. -/
def update_session (st : SvcState) (session_id : ℕ) (status : String)
    (context : Ctx) : SvcState :=
  { st with
    sessions := st.sessions.map (fun s =>
      if s.id = session_id then { s with status := status, context := context }
      else s) }

/-- The payload dict `create_manual_food` receives. -/
structure LibraryPayload where
  name : String
  brand : Option String
  store : Option String
  source_type : String
  source_ref : Option String
  basis : String
  serving_size_g : Option ℚ
  calories : ℚ
  protein_g : ℚ
  fat_g : ℚ
  carbs_g : ℚ
deriving DecidableEq

/-- Library repository `create_food` behind
`LibraryService.create_manual_food`: persist a new food row. -/
def create_manual_food (st : SvcState) (user_id : ℕ)
    (payload : LibraryPayload) : SvcState × LibraryFood :=
  let food : LibraryFood :=
    ⟨st.fresh, user_id, payload.name, payload.brand, payload.store,
     payload.source_type, payload.source_ref, payload.basis,
     payload.serving_size_g, payload.calories, payload.protein_g,
     payload.fat_g, payload.carbs_g, 0, none⟩
  ({ st with library := st.library ++ [food] }, food)

/-- `services/audit.py AuditService.record_event`. -/
def record_event (st : SvcState) (event : AuditEvent) : SvcState :=
  { st with audit_events := st.audit_events ++ [event] }

/-- `domain/meals.py MealItemSnapshot`. -/
structure MealItemSnapshot where
  name : String
  grams : ℚ
  calories : ℚ
  protein_g : ℚ
  fat_g : ℚ
  carbs_g : ℚ
  food_id : Option ℕ
  nutrition_snapshot : Option NutritionSnapshot
deriving DecidableEq

/-- `domain/meals.py MealLogSummary`. -/
structure MealLogSummary where
  meal_id : Option ℕ
  total_calories : ℚ
  total_protein_g : ℚ
  total_fat_g : ℚ
  total_carbs_g : ℚ
  items : List MealItemSnapshot
deriving DecidableEq

/-- The next user-facing prompt, structurally: one constructor per message
template of the source, carrying the values the source interpolates.
Rendering to text and inline keyboards is presentation and is not part of
the embedding. -/
inductive Msg where
  /-- `_build_initial_prompt(vision_items)` with confirm/fix/cancel buttons -/
  | initialPrompt (vision_items : List ItemSpec)
  /-- "Enter the food name to add to your library." -/
  | enterLibraryName
  /-- "Which item do you want to edit?" with one button per name -/
  | editChoicePrompt (names : List String)
  /-- "Session cancelled. Send another photo to start." -/
  | cancelled
  /-- "Please send a comma-separated list." -/
  | sendCommaList
  /-- "Please provide a name for the item." -/
  | provideName
  /-- "Which store is \x7bname\x7d from?" with the four store buttons -/
  | storePrompt (name : String)
  /-- "Choose a store using the buttons." -/
  | chooseStoreButtons
  /-- "Enter the serving size in grams." -/
  | enterServingSize
  /-- "Enter calories, protein, fat, carbs per serving (e.g., 200, 10, 5, 30)." -/
  | enterMacrosPerServing
  /-- "Enter calories, protein, fat, carbs (e.g., 200, 10, 5, 30)." -/
  | enterMacrosReprompt
  /-- "Saved to your library." -/
  | savedToLibrary
  /-- "How much \x7bname\x7d is there?" with use-estimate (when the estimate is
  truthy), enter-grams and skip buttons -/
  | portionPrompt (name : String) (estimate : Option ℤ)
  /-- "Please reply with a number of grams." -/
  | replyNumberOfGrams
  /-- "Please reply with grams." -/
  | replyWithGrams
  /-- "What is the item? Reply with a name." -/
  | whatIsItem
  /-- "For \x7blabel\x7d, I think it's \x7bchoice\x7d. Use this?" with yes/no -/
  | itemConfirm (label : String) (choice : String)
  /-- "Select the \x7blabel\x7d item:" with one button per option label -/
  | selectItem (label : String) (options : List String)
  /-- "USDA lookup timed out. Please choose another option or try again."
  prepended to the re-shown selection prompt -/
  | usdaLookupFailed (inner : Msg)
  /-- "Enter the name for \x7blabel\x7d." -/
  | enterNameFor (label : String)
  /-- "Enter grams for \x7blabel\x7d." -/
  | enterGramsFor (label : String)
  /-- "Enter grams for the item." -/
  | enterGramsForItem
  /-- `_format_summary(summary)` with save/edit/cancel buttons -/
  | summaryPrompt (summary : MealLogSummary)
  /-- `_format_meal_detail(detail)` -/
  | mealUpdated (detail : MealLogDetail)
  /-- "Unable to update that meal item." -/
  | unableToUpdate
  /-- "You already have an active session. Send /cancel to stop it." -/
  | alreadyActive
  /-- photo-download failure reply (`_format_photo_error`) -/
  | downloadFailed
  /-- vision-extraction failure reply (`_format_photo_error`) -/
  | visionFailed
deriving DecidableEq

/-- The external collaborators of the state machine: the FDC nutrition
database (`NutritionService.search` / `get_food`, which may raise) and the
DB-backed library search (`LibraryService.search`, returning ranked rows). -/
structure Providers where
  fdc_search : String → ℕ → Except Unit (List FoodSummary)
  fdc_get : ℤ → Except Unit FoodDetails
  library_search : ℕ → String → ℕ → List LibraryFood

/-- `sessions.py _require_user_id`: raises when the context has no user id. -/
def require_user_id (context : Ctx) : Except Unit ℕ :=
  match context.user_id with
  | some user_id => .ok user_id
  | none => .error ()

/-- `sessions.py SessionService._ensure_candidates`: up to 3 library and 3
external candidates for the current item's label; an external search failure
is swallowed, yielding zero external candidates. -/
def ensure_candidates (P : Providers) (context : Ctx) : Except Unit Ctx :=
  match require_user_id context with
  | .error e => .error e
  | .ok user_id =>
    let label := item_label (current_item context)
    let library := P.library_search user_id label 3
    let fdc := match P.fdc_search label 3 with
      | .ok results => results
      | .error _ => []
    .ok { context with candidate_options := build_candidate_options library fdc }

/-- `sessions.py SessionService._set_manual_target`. -/
def set_manual_target (st : SvcState) (session_id : ℕ) (context : Ctx) :
    SvcState × Msg :=
  let manual : ManualDraft :=
    { target := some context.flow, item_index := some context.current_index,
      name := none, store := none, basis := none, serving_size_g := none }
  let context := { context with manual := manual }
  (update_session st session_id STATUS_AWAITING_MANUAL_NAME context,
   Msg.enterNameFor (current_item_label context))

/-- `sessions.py SessionService._prompt_item_selection`. -/
def prompt_item_selection (st : SvcState) (session_id : ℕ) (context : Ctx) :
    SvcState × Msg :=
  let buttons := context.candidate_options.map (fun option => option.label)
  (update_session st session_id STATUS_AWAITING_ITEM_SELECTION context,
   Msg.selectItem (current_item_label context) buttons)

/-- `sessions.py SessionService._prompt_item_confirmation`. -/
def prompt_item_confirmation (P : Providers) (st : SvcState) (session_id : ℕ)
    (context : Ctx) : Except Unit (SvcState × Msg) :=
  match ensure_candidates P
    (if context.items.isEmpty then
      { context with items := [ItemSpec.ofLabel "item"] }
    else context) with
  | .error e => .error e
  | .ok context2 =>
    match context2.candidate_options with
    | [] =>
      .ok (update_session st session_id STATUS_AWAITING_MANUAL_NAME context2,
           Msg.whatIsItem)
    | top :: _ =>
      if top.type = "manual" then
        .ok (set_manual_target st session_id context2)
      else
        .ok (update_session st session_id STATUS_AWAITING_ITEM_CONFIRMATION
               context2,
             Msg.itemConfirm (current_item_label context2) top.label)

/-- `sessions.py _portion_prompt`. -/
def portion_prompt (context : Ctx) : Msg :=
  let item := current_item context
  let food := item.food.getD FoodSnap.emptyDict
  let name := orStr food.name (item_label item)
  Msg.portionPrompt name (estimate_grams item)

/-- `sessions.py SessionService._apply_candidate_selection`: resolve the
chosen candidate; an external detail-fetch failure re-shows the selection
with an inline notice instead of propagating. -/
def apply_candidate_selection (P : Providers) (st : SvcState)
    (session_id : ℕ) (context : Ctx) (index : ℤ) :
    Except Unit (SvcState × Option Msg) :=
  if 0 ≤ index ∧ index < (context.candidate_options.length : ℤ) then
    match context.candidate_options.get? index.toNat with
    | none => .ok (st, none)
    | some option =>
      if option.type = "manual" then
        let r := set_manual_target st session_id context
        .ok (r.1, some r.2)
      else if option.type = "library" then
        let context2 := set_item_food context option
        .ok (update_session st session_id STATUS_AWAITING_PORTION_CHOICE
               context2,
             some (portion_prompt context2))
      else if option.type = "fdc" then
        match option.fdc_id with
        | some fdc_id =>
          match P.fdc_get fdc_id with
          | .error _ =>
            let r := prompt_item_selection st session_id context
            .ok (r.1, some (Msg.usdaLookupFailed r.2))
          | .ok details =>
            let option2 :=
              { option with
                basis := some "per100g"
                serving_size_g := details.serving_size_g
                calories := some details.macros.calories
                protein_g := some details.macros.protein_g
                fat_g := some details.macros.fat_g
                carbs_g := some details.macros.carbs_g
                source_ref := some (toString fdc_id) }
            let context2 := set_item_food context option2
            .ok (update_session st session_id
                   STATUS_AWAITING_PORTION_CHOICE context2,
                 some (portion_prompt context2))
        | none => .ok (st, none)
      else .ok (st, none)
  else .ok (st, none)

/-- `_resolve_base_macros` on a resolved item: `_has_macros` always holds
(the four macro keys are written by `_build_resolved_items`), so the branch
searching the nutrition provider is unreachable; a `None` macro value makes
`float(None)` raise, modelled as `Except.error`. -/
def resolve_base_macros (item : ResolvedItem) :
    Except Unit (MacroProfile × String × Option ℚ) :=
  match item.calories, item.protein_g, item.fat_g, item.carbs_g with
  | some calories, some protein, some fat, some carbs =>
    .ok (⟨calories, protein, fat, carbs⟩, orStr item.basis "per100g",
         item.serving_size_g)
  | _, _, _, _ => .error ()

/-- `meals.py _parse_uuid` on the stored string id. -/
def parse_uuid (value : Option String) : Option ℕ :=
  value.bind natFromString

/-- `meals.py _build_snapshots` loop with its two accumulators. -/
def build_snapshots_from (items : List ResolvedItem)
    (snapshots : List MealItemSnapshot) (total : MacroProfile) :
    Except Unit (List MealItemSnapshot × MacroProfile) :=
  match items with
  | [] => .ok (snapshots, total)
  | item :: rest =>
    let label := orStr (some item.name) "item"
    let grams : ℚ := (item.grams : ℚ)
    match resolve_base_macros item with
    | .error e => .error e
    | .ok (base_macros, basis, serving_size) =>
      let portion := compute_portion_macros base_macros grams basis serving_size
      let food_id := parse_uuid item.food_id
      let nutrition_snapshot : NutritionSnapshot :=
        ⟨some basis, serving_size, some base_macros.calories,
         some base_macros.protein_g, some base_macros.fat_g,
         some base_macros.carbs_g, item.source_type, item.source_ref⟩
      let snapshot : MealItemSnapshot :=
        ⟨label, grams, portion.calories, portion.protein_g, portion.fat_g,
         portion.carbs_g, food_id, some nutrition_snapshot⟩
      build_snapshots_from rest (snapshots ++ [snapshot])
        ⟨total.calories + portion.calories,
         total.protein_g + portion.protein_g,
         total.fat_g + portion.fat_g,
         total.carbs_g + portion.carbs_g⟩

/-- `meals.py _build_snapshots` on the session's resolved items. -/
def build_snapshots (items : List ResolvedItem) :
    Except Unit (List MealItemSnapshot × MacroProfile) :=
  build_snapshots_from items [] MacroProfile.zero

/-- `meals.py MealLogService.compute_summary`. -/
def compute_summary (items : List ResolvedItem) : Except Unit MealLogSummary :=
  match build_snapshots items with
  | .error e => .error e
  | .ok (snapshots, total) =>
    .ok ⟨none, total.calories, total.protein_g, total.fat_g, total.carbs_g,
         snapshots⟩

/-- `sessions.py SessionService._show_summary`. -/
def show_summary (st : SvcState) (session_id : ℕ) (context : Ctx) :
    Except Unit (SvcState × Msg) :=
  let context2 := { context with resolved_items := build_resolved_items context }
  match compute_summary context2.resolved_items with
  | .error e => .error e
  | .ok summary =>
    .ok (update_session st session_id STATUS_AWAITING_SAVE context2,
         Msg.summaryPrompt summary)

/-- `sessions.py SessionService._advance_or_summarize`. -/
def advance_or_summarize (P : Providers) (st : SvcState) (session_id : ℕ)
    (context : Ctx) : Except Unit (SvcState × Msg) :=
  let context2 := { context with current_index := context.current_index + 1 }
  if context2.current_index < (context2.items.length : ℤ) then
    prompt_item_confirmation P st session_id context2
  else
    show_summary st session_id context2

/-- `sessions.py SessionService._apply_estimate`. -/
def apply_estimate (P : Providers) (st : SvcState) (session_id : ℕ)
    (context : Ctx) : Except Unit (SvcState × Msg) :=
  match estimate_grams (current_item context) with
  | none =>
    .ok (update_session st session_id STATUS_AWAITING_MANUAL_GRAMS context,
         Msg.enterGramsForItem)
  | some estimate =>
    advance_or_summarize P st session_id (record_current_grams context estimate)

/-- `sessions.py SessionService._finalize_manual_entry`. -/
def finalize_manual_entry (st : SvcState) (session_id : ℕ) (context : Ctx)
    (macros : ℚ × ℚ × ℚ × ℚ) : Except Unit (SvcState × Ctx) :=
  let manual := context.manual
  let name := manual.name.getD "item"
  let basis := manual.basis.getD "per100g"
  let serving_size := manual.serving_size_g
  let food_payload : CandidateOption :=
    { type := "manual", label := name, name := some name,
      source_type := some "manual", basis := some basis,
      serving_size_g := serving_size.map (fun n => (n : ℚ)),
      store := manual.store, calories := some macros.1,
      protein_g := some macros.2.1, fat_g := some macros.2.2.1,
      carbs_g := some macros.2.2.2, brand := none, food_id := none,
      source_ref := none, fdc_id := none }
  if manual.target = some "library" then
    match require_user_id context with
    | .error e => .error e
    | .ok user_id =>
      let st2 := (create_manual_food st user_id
        { name := name, brand := none, store := manual.store,
          source_type := "manual", source_ref := none, basis := basis,
          serving_size_g := serving_size.map (fun n => (n : ℚ)),
          calories := macros.1, protein_g := macros.2.1,
          fat_g := macros.2.2.1, carbs_g := macros.2.2.2 }).1
      .ok (update_session st2 session_id STATUS_COMPLETED context, context)
  else
    let context2 := set_item_food context food_payload
    .ok (update_session st session_id STATUS_AWAITING_PORTION_CHOICE context2,
         context2)

/-- `sessions.py SessionService._handle_photo_text`. -/
def handle_photo_text (P : Providers) (st : SvcState) (session : SessionRec)
    (text : String) : Except Unit (SvcState × Option Msg) :=
  let context := session.context
  if session.status = STATUS_AWAITING_ITEM_LIST then
    let items := parse_item_list text
    if items.isEmpty then .ok (st, some Msg.sendCommaList)
    else
      match prompt_item_confirmation P st session.id
        { context with items := items.map ItemSpec.ofLabel, current_index := 0 } with
      | .error e => .error e
      | .ok r => .ok (r.1, some r.2)
  else if session.status = STATUS_AWAITING_MANUAL_NAME then
    let name := String.mk (pyStrip text.data)
    if name = "" then .ok (st, some Msg.provideName)
    else
      let context2 :=
        { context with manual := { context.manual with name := some name } }
      .ok (update_session st session.id STATUS_AWAITING_MANUAL_STORE context2,
           some (Msg.storePrompt name))
  else if session.status = STATUS_AWAITING_MANUAL_STORE then
    .ok (st, some Msg.chooseStoreButtons)
  else if session.status = STATUS_AWAITING_MANUAL_SERVING then
    match parse_grams text with
    | none => .ok (st, some Msg.enterServingSize)
    | some grams =>
      let context2 :=
        { context with
          manual := { context.manual with serving_size_g := some grams } }
      .ok (update_session st session.id STATUS_AWAITING_MANUAL_MACROS context2,
           some Msg.enterMacrosPerServing)
  else if session.status = STATUS_AWAITING_MANUAL_MACROS then
    match parse_macros text with
    | none => .ok (st, some Msg.enterMacrosReprompt)
    | some macros =>
      match finalize_manual_entry st session.id context macros with
      | .error e => .error e
      | .ok r =>
        if r.2.flow = "library" then .ok (r.1, some Msg.savedToLibrary)
        else .ok (r.1, some (portion_prompt r.2))
  else if session.status = STATUS_AWAITING_MANUAL_GRAMS then
    match parse_grams text with
    | none => .ok (st, some Msg.replyNumberOfGrams)
    | some grams =>
      match advance_or_summarize P st session.id
        (record_current_grams context grams) with
      | .error e => .error e
      | .ok r => .ok (r.1, some r.2)
  else if session.status = STATUS_AWAITING_EDIT_GRAMS then
    match parse_grams text with
    | none => .ok (st, some Msg.replyWithGrams)
    | some grams =>
      match show_summary st session.id (apply_edit_grams context grams) with
      | .error e => .error e
      | .ok r => .ok (r.1, some r.2)
  else .ok (st, none)

/-- `sessions.py SessionService._handle_edit_text`: parse grams, run the
single-item update, complete the session, record the audit event when a
before or after snapshot exists, and reply with the refreshed detail. -/
def handle_edit_text (st : SvcState) (session : SessionRec) (text : String) :
    SvcState × Option Msg :=
  if session.status ≠ STATUS_EDIT_ENTER_GRAMS then (st, none)
  else match parse_grams text with
  | none => (st, some Msg.replyWithGrams)
  | some grams =>
    match session.context.edit_item_id with
    | none => (st, none)
    | some raw =>
      match natFromString raw with
      | none => (st, none)
      | some item_id =>
        let r := update_meal_item_grams st.repo item_id (grams : ℚ)
        let st := { st with repo := r.1 }
        let st := update_session st session.id STATUS_COMPLETED session.context
        match r.2 with
        | none => (st, some Msg.unableToUpdate)
        | some detail =>
          let before := edit_item_snapshot session.context item_id
          let after := detail_item_snapshot detail item_id
          let st :=
            if before.isSome ∨ after.isSome then
              record_event st
                ⟨session.user_id, "meal_item", item_id, "update_grams",
                 before, after⟩
            else st
          (st, some (Msg.mealUpdated detail))

/-- `sessions.py SessionService._cancel_session`: delete the linked photo
when present, then mark the session cancelled. -/
def cancel_session (st : SvcState) (session : SessionRec) : SvcState × Msg :=
  let st := match session.photo_id with
    | some photo_id => delete_photo st photo_id
    | none => st
  (update_session st session.id STATUS_CANCELLED session.context,
   Msg.cancelled)

/-- `sessions.py SessionService.cancel_active_session`: no-op when the user
has no active session. -/
def cancel_active_session (st : SvcState) (user_id : ℕ) :
    SvcState × Option Msg :=
  match get_active_session st user_id with
  | none => (st, none)
  | some session =>
    let r := cancel_session st session
    (r.1, some r.2)

/-- The fresh context `start_session` stores (absent keys at their read
defaults). -/
def Ctx.photoInit (user_id : ℕ) (vision_items : List ItemSpec) : Ctx :=
  { flow := "photo", user_id := some user_id, items := vision_items,
    current_index := 0, resolved_items := [], manual := ManualDraft.empty,
    candidate_options := [], edit_index := -1, edit_items := [],
    edit_item_id := none, edit_item_name := none, meal_id := none }

/-- `sessions.py SessionService.start_session` (photo flow entry). -/
def start_session (st : SvcState) (user_id : ℕ)
    (vision_items : List ItemSpec) : SvcState × ℕ × Msg :=
  let r := create_photo st
  let r2 := create_session r.1 user_id (some r.2)
    STATUS_AWAITING_CONFIRMATION (Ctx.photoInit user_id vision_items)
  (r2.1, r2.2.id, Msg.initialPrompt vision_items)

/-- The fresh context `start_library_add_session` stores. -/
def Ctx.libraryInit (user_id : ℕ) : Ctx :=
  { flow := "library", user_id := some user_id, items := [],
    current_index := 0, resolved_items := [],
    manual := { ManualDraft.empty with target := some "library" },
    candidate_options := [], edit_index := -1, edit_items := [],
    edit_item_id := none, edit_item_name := none, meal_id := none }

/-- `sessions.py SessionService.start_library_add_session`. -/
def start_library_add_session (st : SvcState) (user_id : ℕ) :
    SvcState × Msg :=
  ((create_session st user_id none STATUS_AWAITING_MANUAL_NAME
      (Ctx.libraryInit user_id)).1,
   Msg.enterLibraryName)

/-- The fresh context `start_edit_session` stores for a meal detail. -/
def Ctx.editInit (user_id : ℕ) (meal_log_id : ℕ) (detail : MealLogDetail) :
    Ctx :=
  { flow := "edit", user_id := some user_id, items := [], current_index := 0,
    resolved_items := [], manual := ManualDraft.empty,
    candidate_options := [], edit_index := -1,
    edit_items := detail.items.map (fun item =>
      ⟨some (toString item.id), some item.name, some item.grams,
       some item.calories, some item.protein_g, some item.fat_g,
       some item.carbs_g⟩),
    edit_item_id := none, edit_item_name := none, meal_id := some meal_log_id }

/-- `sessions.py SessionService.start_edit_session`. -/
def start_edit_session (st : SvcState) (user_id : ℕ) (meal_log_id : ℕ) :
    SvcState × Option Msg :=
  match get_meal_detail st.repo meal_log_id with
  | none => (st, none)
  | some detail =>
    let context := Ctx.editInit user_id meal_log_id detail
    ((create_session st user_id none STATUS_EDIT_SELECT_ITEM context).1,
     some (Msg.editChoicePrompt
       (context.edit_items.map (fun it => it.name.getD "item"))))

/-- The active-session guard each flow-starting webhook branch runs
(`api/app.py telegram_webhook`): an active session exists and its status is
not terminal. -/
def has_active_guard (st : SvcState) (user_id : ℕ) : Bool :=
  match get_active_session st user_id with
  | some active =>
    !(active.status == STATUS_COMPLETED || active.status == STATUS_CANCELLED)
  | none => false

/-- `api/app.py telegram_webhook` photo branch: guard, then download, then
vision extraction, then `start_session`. -/
def webhook_photo_entry (st : SvcState) (user_id : ℕ)
    (download : Except Unit Unit)
    (vision : Except Unit (List ItemSpec)) : SvcState × Msg :=
  if has_active_guard st user_id then (st, Msg.alreadyActive)
  else match download with
  | .error _ => (st, Msg.downloadFailed)
  | .ok _ =>
    match vision with
    | .error _ => (st, Msg.visionFailed)
    | .ok vision_items =>
      let r := start_session st user_id vision_items
      (r.1, r.2.2)

/-- `api/app.py telegram_webhook` edit-callback branch: guard, then
`start_edit_session`. -/
def webhook_edit_entry (st : SvcState) (user_id : ℕ) (meal_log_id : ℕ) :
    SvcState × Option Msg :=
  if has_active_guard st user_id then (st, some Msg.alreadyActive)
  else start_edit_session st user_id meal_log_id

/-- `api/app.py telegram_webhook` library-add branch: guard, then
`start_library_add_session`. -/
def webhook_library_entry (st : SvcState) (user_id : ℕ) : SvcState × Msg :=
  if has_active_guard st user_id then (st, Msg.alreadyActive)
  else start_library_add_session st user_id

/-- The portion recomputation `update_meal_item_grams` applies: the frozen
snapshot stored on the item, evaluated at the new grams. -/
def snapshot_portion (item : MealItemRecord) (grams : ℚ) : MacroProfile :=
  compute_portion_macros (macros_from_snapshot item.nutrition_snapshot).1
    grams (macros_from_snapshot item.nutrition_snapshot).2.1
    (macros_from_snapshot item.nutrition_snapshot).2.2

/-- A meal item row after a gram edit: new grams, snapshot-derived macros,
everything else (including the snapshot itself) untouched. -/
def updated_meal_item (item : MealItemRecord) (grams : ℚ) : MealItemRecord :=
  { item with
    grams := grams
    calories := (snapshot_portion item grams).calories
    protein_g := (snapshot_portion item grams).protein_g
    fat_g := (snapshot_portion item grams).fat_g
    carbs_g := (snapshot_portion item grams).carbs_g }

/-- Number of sessions of a user that are active in the claim's sense
(status outside the two terminal values). -/
def activeCount (st : SvcState) (user_id : ℕ) : ℕ :=
  (st.sessions.filter (fun s => s.user_id = user_id ∧
    s.status ≠ STATUS_COMPLETED ∧ s.status ≠ STATUS_CANCELLED)).length

/-! Concrete fixtures used to instantiate the theorems below. -/

/-- Providers whose every call raises. -/
def failingProviders : Providers :=
  ⟨fun _ _ => .error (), fun _ => .error (), fun _ _ _ => []⟩

/-- Providers whose searches succeed with no results and whose detail fetch
raises. -/
def emptySearchProviders : Providers :=
  ⟨fun _ _ => .ok [], fun _ => .error (), fun _ _ _ => []⟩

/-- The empty persisted state. -/
def st0 : SvcState := ⟨[], [], [], [], ⟨[], []⟩⟩

/-- A frozen per-100g snapshot with 130 calories. -/
def demoSnapshot : NutritionSnapshot :=
  ⟨some "per100g", none, some 130, some 5, some 3, some 27, some "manual", none⟩

/-- A saved meal item: 100 g, 130 kcal, frozen snapshot `demoSnapshot`. -/
def demoItem : MealItemRecord :=
  ⟨10, 1, none, "Chicken", 100, 130, 5, 3, 27, demoSnapshot⟩

/-- The meal log owning `demoItem`. -/
def demoLog : MealLogRow := ⟨1, 0, 130, 5, 3, 27⟩

/-- Meal repository holding the demo meal. -/
def demoRepo : MealRepoState := ⟨[demoLog], [demoItem]⟩

/-- `demoItem` after editing its grams to 200 (factor 2 from per-100g). -/
def demoItemUpdated : MealItemRecord :=
  ⟨10, 1, none, "Chicken", 200, 260, 10, 6, 54, demoSnapshot⟩

/-- `demoLog` after the re-sum. -/
def demoLogUpdated : MealLogRow := ⟨1, 0, 260, 10, 6, 54⟩

/-- The meal repository after the edit. -/
def demoRepoUpdated : MealRepoState := ⟨[demoLogUpdated], [demoItemUpdated]⟩

/-- The refreshed detail the edit returns. -/
def demoDetailUpdated : MealLogDetail := ⟨1, 0, 260, 10, 6, 54, [demoItemUpdated]⟩

/-- Edit-flow context pointing at `demoItem`. -/
def demoEditCtx : Ctx :=
  { flow := "edit", user_id := some 1, items := [], current_index := 0,
    resolved_items := [], manual := ManualDraft.empty,
    candidate_options := [], edit_index := -1,
    edit_items := [⟨some "10", some "Chicken", some 100, some 130, some 5,
                    some 3, some 27⟩],
    edit_item_id := some "10", edit_item_name := some "Chicken",
    meal_id := some 1 }

/-- An edit session awaiting grams for `demoItem`. -/
def demoSession : SessionRec := ⟨7, 1, none, STATUS_EDIT_ENTER_GRAMS, demoEditCtx⟩

/-- State holding the demo meal and the demo edit session. -/
def demoState : SvcState := ⟨[demoSession], [], [], [], demoRepo⟩

/-- A photo-flow context with one vision item (gram range 100–200). -/
def chickenItem : ItemSpec :=
  ⟨some "Chicken", none, some (9/10), some 100, some 200, none, false, none⟩

/-- A photo-flow session context holding `chickenItem`. -/
def chickenCtx : Ctx := Ctx.photoInit 1 [chickenItem]

/-- A photo-flow session in the portion-choice state for `chickenItem`. -/
def chickenSession : SessionRec :=
  ⟨3, 1, some 2, STATUS_AWAITING_PORTION_CHOICE, chickenCtx⟩

/-- An external-database candidate option. -/
def fdcOption : CandidateOption :=
  { type := "fdc", label := "Chicken breast · USDA",
    name := some "Chicken breast", brand := none, store := none,
    food_id := none, source_type := some "fdc", source_ref := none,
    basis := none, serving_size_g := none, calories := none,
    protein_g := none, fat_g := none, carbs_g := none, fdc_id := some 42 }

/-- `chickenCtx` with a candidate list shown for selection. -/
def selectionCtx : Ctx :=
  { chickenCtx with candidate_options := [fdcOption, manualOption] }

/-- State holding the photo-flow demo session. -/
def chickenState : SvcState := ⟨[chickenSession], [2], [], [], ⟨[], []⟩⟩

/-- A photo-flow session awaiting manually typed grams for `chickenItem`. -/
def gramsSession : SessionRec :=
  ⟨3, 1, some 2, STATUS_AWAITING_MANUAL_GRAMS, chickenCtx⟩

/-- State holding `gramsSession`. -/
def gramsState : SvcState := ⟨[gramsSession], [2], [], [], ⟨[], []⟩⟩

end NutritionTracker

namespace NutritionTracker

/-- C1. Portion scaling: zero macros when grams ≤ 0; factor grams/serving
when the basis is perServing with a positive serving size; factor grams/100
otherwise; all four fields scale by that one factor; and the two concrete
profiles from the spec evaluate as stated. -/
theorem C1_portion_scaling (base : MacroProfile) (basis : String)
    (serving : Option ℚ) (grams : ℚ) :
    (grams ≤ 0 → compute_portion_macros base grams basis serving = MacroProfile.zero) ∧
    (∀ s, 0 < grams → serving = some s → 0 < s → basis = "perServing" →
      compute_portion_macros base grams basis serving =
        ⟨base.calories * (grams / s), base.protein_g * (grams / s),
         base.fat_g * (grams / s), base.carbs_g * (grams / s)⟩) ∧
    (0 < grams → (basis ≠ "perServing" ∨ ∀ s, serving = some s → s ≤ 0) →
      compute_portion_macros base grams basis serving =
        ⟨base.calories * (grams / 100), base.protein_g * (grams / 100),
         base.fat_g * (grams / 100), base.carbs_g * (grams / 100)⟩) ∧
    compute_portion_macros ⟨150, 5, 3, 27⟩ 80 "perServing" (some 40) =
      ⟨300, 10, 6, 54⟩ ∧
    compute_portion_macros ⟨150, 5, 3, 27⟩ 80 "per100g" (some 40) =
      ⟨120, 4, 12/5, 108/5⟩ := by
  refine ⟨?_, ?_, ?_, by norm_num [compute_portion_macros, optRatTruthy],
    by norm_num [compute_portion_macros, optRatTruthy]; decide⟩
  · intro h
    simp [compute_portion_macros, h]
  · rintro s hg rfl hs rfl
    have hng : ¬ grams ≤ 0 := not_le.mpr hg
    have hs0 : s ≠ 0 := ne_of_gt hs
    simp [compute_portion_macros, hng, optRatTruthy, hs0, hs]
  · intro hg hcase
    have hng : ¬ grams ≤ 0 := not_le.mpr hg
    have hcond : ¬ (basis = "perServing" ∧ optRatTruthy serving
        ∧ 0 < serving.getD 0) := by
      rcases hcase with hb | hserv
      · rintro ⟨hb', -, -⟩; exact hb hb'
      · rintro ⟨-, htr, hpos⟩
        cases serving with
        | none => simp [optRatTruthy] at htr
        | some s =>
          have := hserv s rfl
          simp only [Option.getD_some] at hpos
          exact absurd hpos (not_lt.mpr this)
    simp only [compute_portion_macros, if_neg hng, if_neg hcond]

/-- Witness for C1 at concrete inputs discharging each hypothesis shape. -/
theorem C1_portion_scaling_witness :
    compute_portion_macros ⟨150, 5, 3, 27⟩ (-1) "per100g" none = MacroProfile.zero ∧
    compute_portion_macros ⟨150, 5, 3, 27⟩ 80 "perServing" (some 40) =
      ⟨150 * (80/40), 5 * (80/40), 3 * (80/40), 27 * (80/40)⟩ ∧
    compute_portion_macros ⟨150, 5, 3, 27⟩ 80 "per100g" none =
      ⟨150 * (80/100), 5 * (80/100), 3 * (80/100), 27 * (80/100)⟩ := by
  refine ⟨(C1_portion_scaling ⟨150, 5, 3, 27⟩ "per100g" none (-1)).1 (by norm_num),
    ?_, ?_⟩
  · have h := ((C1_portion_scaling ⟨150, 5, 3, 27⟩ "perServing" (some 40) 80).2.1)
      40 (by norm_num) rfl (by norm_num) rfl
    simpa using h
  · have h := ((C1_portion_scaling ⟨150, 5, 3, 27⟩ "per100g" none 80).2.2.1)
      (by norm_num) (Or.inl (by decide))
    simpa using h

/-- Helper: a session found in an updated state under the updated id carries
the written status and context. -/
theorem mem_update_session {st : SvcState} {session_id : ℕ} {status : String}
    {context : Ctx} {s : SessionRec}
    (hs : s ∈ (update_session st session_id status context).sessions)
    (hid : s.id = session_id) : s.status = status ∧ s.context = context := by
  simp only [update_session] at hs
  rcases List.mem_map.mp hs with ⟨t, ht, heq⟩
  by_cases h : t.id = session_id
  · rw [if_pos h] at heq
    subst heq
    exact ⟨rfl, rfl⟩
  · rw [if_neg h] at heq
    subst heq
    exact absurd hid h

/-- Helper: with a user id present, `_ensure_candidates` returns normally
and stores the options built from the library search and the (possibly
degraded) external search. -/
theorem ensure_candidates_eq (P : Providers) (context : Ctx) (uid : ℕ)
    (h : context.user_id = some uid) :
    ensure_candidates P context = .ok { context with
      candidate_options :=
        build_candidate_options
          (P.library_search uid (item_label (current_item context)) 3)
          (match P.fdc_search (item_label (current_item context)) 3 with
           | .ok results => results
           | .error _ => []) } := by
  simp [ensure_candidates, require_user_id, h]

/-- Helper: the option list always ends with the manual option. -/
theorem build_candidate_options_spec (library : List LibraryFood)
    (fdc : List FoodSummary) :
    build_candidate_options library fdc ≠ [] ∧
    (build_candidate_options library fdc).getLast? = some manualOption := by
  constructor
  · simp [build_candidate_options]
  · unfold build_candidate_options
    rw [List.getLast?_append_of_ne_nil _ (by simp)]
    rfl

/-- Helper: when the top candidate is the manual option, per-item
confirmation routes to manual name entry. -/
theorem prompt_item_confirmation_manual_top (P : Providers) (st : SvcState)
    (session_id : ℕ) (context : Ctx) (uid : ℕ) (top : CandidateOption)
    (rest : List CandidateOption)
    (h : context.user_id = some uid) (hne : ¬ context.items.isEmpty)
    (hopts : build_candidate_options
      (P.library_search uid (item_label (current_item context)) 3)
      (match P.fdc_search (item_label (current_item context)) 3 with
       | .ok results => results
       | .error _ => []) = top :: rest)
    (htop : top.type = "manual") :
    prompt_item_confirmation P st session_id context =
      .ok (set_manual_target st session_id
        { context with candidate_options := top :: rest }) := by
  unfold prompt_item_confirmation
  rw [if_neg hne, ensure_candidates_eq P context uid h]
  simp [hopts, htop]

/-- Helper: when the top candidate is not the manual option, per-item
confirmation asks the yes/no question about it. -/
theorem prompt_item_confirmation_confirm_top (P : Providers) (st : SvcState)
    (session_id : ℕ) (context : Ctx) (uid : ℕ) (top : CandidateOption)
    (rest : List CandidateOption)
    (h : context.user_id = some uid) (hne : ¬ context.items.isEmpty)
    (hopts : build_candidate_options
      (P.library_search uid (item_label (current_item context)) 3)
      (match P.fdc_search (item_label (current_item context)) 3 with
       | .ok results => results
       | .error _ => []) = top :: rest)
    (htop : ¬ top.type = "manual") :
    prompt_item_confirmation P st session_id context =
      .ok (update_session st session_id STATUS_AWAITING_ITEM_CONFIRMATION
             { context with candidate_options := top :: rest },
           Msg.itemConfirm (current_item_label context) top.label) := by
  unfold prompt_item_confirmation
  rw [if_neg hne, ensure_candidates_eq P context uid h]
  simp [hopts, htop]
  rfl

/-- Helper: an empty item list is first replaced by the one-item default. -/
theorem prompt_item_confirmation_empty (P : Providers) (st : SvcState)
    (session_id : ℕ) (context : Ctx) (he : context.items.isEmpty) :
    prompt_item_confirmation P st session_id context =
      prompt_item_confirmation P st session_id
        { context with items := [ItemSpec.ofLabel "item"] } := by
  conv_lhs => unfold prompt_item_confirmation
  conv_rhs => unfold prompt_item_confirmation
  rw [if_pos he, if_neg (by simp)]

/-- C10. The built candidate list is never empty and always ends with the
synthetic manual option; consequently per-item confirmation never reaches
its empty-candidates fallback ("What is the item?") and always produces
either the yes/no top-candidate question or the manual-name prompt. -/
theorem C10_candidate_options_invariant :
    (∀ library fdc, build_candidate_options library fdc ≠ [] ∧
      (build_candidate_options library fdc).getLast? = some manualOption) ∧
    (∀ P st session_id context uid, context.user_id = some uid →
      ∃ st' m, prompt_item_confirmation P st session_id context = .ok (st', m) ∧
        m ≠ Msg.whatIsItem ∧
        ((∃ label choice, m = Msg.itemConfirm label choice) ∨
         (∃ label, m = Msg.enterNameFor label))) := by
  refine ⟨build_candidate_options_spec, ?_⟩
  have key : ∀ P st session_id (ctx : Ctx) uid, ctx.user_id = some uid →
      ¬ ctx.items.isEmpty →
      ∃ st' m, prompt_item_confirmation P st session_id ctx = .ok (st', m) ∧
        m ≠ Msg.whatIsItem ∧
        ((∃ label choice, m = Msg.itemConfirm label choice) ∨
         (∃ label, m = Msg.enterNameFor label)) := by
    intro P st session_id ctx uid hu hne
    rcases hopts : build_candidate_options
        (P.library_search uid (item_label (current_item ctx)) 3)
        (match P.fdc_search (item_label (current_item ctx)) 3 with
         | .ok results => results
         | .error _ => []) with _ | ⟨top, rest⟩
    · exact absurd hopts (build_candidate_options_spec _ _).1
    by_cases htop : top.type = "manual"
    · rw [prompt_item_confirmation_manual_top P st session_id ctx uid top rest
        hu hne hopts htop]
      exact ⟨_, _, rfl, by simp [set_manual_target], Or.inr ⟨_, rfl⟩⟩
    · rw [prompt_item_confirmation_confirm_top P st session_id ctx uid top rest
        hu hne hopts htop]
      exact ⟨_, _, rfl, by simp, Or.inl ⟨_, _, rfl⟩⟩
  intro P st session_id context uid h
  by_cases hempty : context.items.isEmpty
  · rw [prompt_item_confirmation_empty P st session_id context hempty]
    exact key P st session_id _ uid h (by simp)
  · exact key P st session_id context uid h hempty

/-- Witness for C10 at a concrete session context. -/
theorem C10_candidate_options_invariant_witness :
    ∃ st' m,
      prompt_item_confirmation emptySearchProviders st0 3 chickenCtx =
        .ok (st', m) ∧
      m ≠ Msg.whatIsItem ∧
      ((∃ label choice, m = Msg.itemConfirm label choice) ∨
       (∃ label, m = Msg.enterNameFor label)) :=
  C10_candidate_options_invariant.2 emptySearchProviders st0 3 chickenCtx 1 rfl

/-- C5. If the external nutrition-database search raises, per-item
confirmation still returns a prompt without propagating the exception, and
the candidate options stored on the session are built from the library
candidates plus the manual option only. -/
theorem C5_degraded_candidate_search (P : Providers) (st : SvcState)
    (session_id : ℕ) (context : Ctx) (uid : ℕ)
    (hu : context.user_id = some uid) (hitems : ¬ context.items.isEmpty)
    (hfail : ∀ query limit, P.fdc_search query limit = .error ()) :
    ∃ st' m, prompt_item_confirmation P st session_id context = .ok (st', m) ∧
      ∀ s ∈ st'.sessions, s.id = session_id →
        s.context.candidate_options =
          build_candidate_options
            (P.library_search uid (current_item_label context) 3) [] := by
  have hmatch : (match P.fdc_search (item_label (current_item context)) 3 with
      | .ok results => results
      | .error _ => ([] : List FoodSummary)) = [] := by rw [hfail]
  rcases hopts : build_candidate_options
      (P.library_search uid (item_label (current_item context)) 3)
      (match P.fdc_search (item_label (current_item context)) 3 with
       | .ok results => results
       | .error _ => []) with _ | ⟨top, rest⟩
  · exact absurd hopts (build_candidate_options_spec _ _).1
  by_cases htop : top.type = "manual"
  · rw [prompt_item_confirmation_manual_top P st session_id context uid top
      rest hu hitems hopts htop]
    refine ⟨_, _, rfl, ?_⟩
    intro s hs hid
    have h2 := (mem_update_session (by simpa [set_manual_target] using hs)
      hid).2
    rw [h2]
    rw [hmatch] at hopts
    simpa [current_item_label] using hopts.symm
  · rw [prompt_item_confirmation_confirm_top P st session_id context uid top
      rest hu hitems hopts htop]
    refine ⟨_, _, rfl, ?_⟩
    intro s hs hid
    have h2 := (mem_update_session hs hid).2
    rw [h2]
    rw [hmatch] at hopts
    simpa [current_item_label] using hopts.symm

/-- Witness for C5: all-failing providers on a concrete context. -/
theorem C5_degraded_candidate_search_witness :
    ∃ st' m,
      prompt_item_confirmation failingProviders st0 3 chickenCtx =
        .ok (st', m) ∧
      ∀ s ∈ st'.sessions, s.id = 3 →
        s.context.candidate_options =
          build_candidate_options
            (failingProviders.library_search 1
              (current_item_label chickenCtx) 3) [] :=
  C5_degraded_candidate_search failingProviders st0 3 chickenCtx 1 rfl
    (by decide) (fun _ _ => rfl)

/-- C4. Detail-fetch failure after explicit selection: choosing an
external-database (fdc) candidate whose detail fetch raises does not raise,
attaches no food to the current item (the context persisted with the
session is the unchanged `context`), and leaves the session in
AWAITING_ITEM_SELECTION with the same candidate labels re-shown under the
inline error notice. -/
theorem C4_detail_fetch_failure (P : Providers) (st : SvcState)
    (session_id : ℕ) (context : Ctx) (index : ℕ) (option : CandidateOption)
    (fdc_id : ℤ)
    (hopt : context.candidate_options.get? index = some option)
    (htype : option.type = "fdc") (hid : option.fdc_id = some fdc_id)
    (hfail : P.fdc_get fdc_id = .error ()) :
    apply_candidate_selection P st session_id context (index : ℤ) =
      .ok (update_session st session_id STATUS_AWAITING_ITEM_SELECTION context,
           some (Msg.usdaLookupFailed
             (Msg.selectItem (current_item_label context)
               (context.candidate_options.map (fun o => o.label))))) := by
  have hlt : index < context.candidate_options.length := by
    rcases List.get?_eq_some.mp hopt with ⟨h, -⟩
    exact h
  have hcond : (0 : ℤ) ≤ (index : ℤ) ∧
      (index : ℤ) < (context.candidate_options.length : ℤ) :=
    ⟨Int.natCast_nonneg index, by exact_mod_cast hlt⟩
  unfold apply_candidate_selection
  rw [if_pos hcond]
  simp only [Int.toNat_natCast, hopt]
  rw [htype, hid]
  simp +decide [hfail, prompt_item_selection]

/-- Witness for C4: selecting the fdc candidate at index 0 while the detail
fetch fails. -/
theorem C4_detail_fetch_failure_witness :
    apply_candidate_selection failingProviders st0 3 selectionCtx
        ((0 : ℕ) : ℤ) =
      .ok (update_session st0 3 STATUS_AWAITING_ITEM_SELECTION selectionCtx,
           some (Msg.usdaLookupFailed
             (Msg.selectItem (current_item_label selectionCtx)
               (selectionCtx.candidate_options.map (fun o => o.label))))) :=
  C4_detail_fetch_failure failingProviders st0 3 selectionCtx 0 fdcOption 42
    rfl rfl rfl rfl

/-- Helper: a list with a known last element and length at most one is that
singleton. -/
theorem eq_singleton_of_getLast? {α : Type} {l : List α} {a : α}
    (h : l.getLast? = some a) (hlen : l.length ≤ 1) : l = [a] := by
  match l with
  | [] => simp at h
  | [x] =>
    simp only [List.getLast?_singleton, Option.some.injEq] at h
    rw [h]
  | x :: y :: t => simp at hlen

/-- Helper: the sessions of the state `_cancel_session` produces. -/
theorem cancel_session_sessions (st : SvcState) (session : SessionRec) :
    (cancel_session st session).1.sessions =
      st.sessions.map (fun s =>
        if s.id = session.id then
          { s with status := STATUS_CANCELLED, context := session.context }
        else s) := by
  unfold cancel_session
  cases session.photo_id <;> rfl

/-- C9. Cancel is safe and idempotent: with no active session, cancelling
returns nothing and changes no state; with an active session, it marks the
session CANCELLED and deletes the linked photo exactly when one is present
(no photo row is touched otherwise); and right after a cancel, a second
cancel is a no-op. -/
theorem C9_cancel_safe_idempotent (st : SvcState) (user_id : ℕ) :
    (get_active_session st user_id = none →
      cancel_active_session st user_id = (st, none)) ∧
    (∀ session, get_active_session st user_id = some session →
      cancel_active_session st user_id =
        (update_session
          (match session.photo_id with
           | some photo_id => delete_photo st photo_id
           | none => st)
          session.id STATUS_CANCELLED session.context,
         some Msg.cancelled) ∧
      (session.photo_id = none →
        (cancel_active_session st user_id).1.photos = st.photos) ∧
      (∀ p, session.photo_id = some p →
        (cancel_active_session st user_id).1.photos =
          st.photos.filter (fun q => q ≠ p))) ∧
    ((st.sessions.filter (fun s => s.user_id = user_id ∧
        s.status ∈ ACTIVE_STATUSES)).length ≤ 1 →
      cancel_active_session (cancel_active_session st user_id).1 user_id =
        ((cancel_active_session st user_id).1, none)) := by
  refine ⟨?_, ?_, ?_⟩
  · intro h
    unfold cancel_active_session
    rw [h]
  · intro session h
    unfold cancel_active_session
    rw [h]
    refine ⟨rfl, ?_, ?_⟩
    · intro hph
      simp [cancel_session, hph, update_session]
    · intro p hph
      simp [cancel_session, hph, update_session, delete_photo]
  · intro hlen
    rcases hga : get_active_session st user_id with _ | session
    · have h1 : cancel_active_session st user_id = (st, none) := by
        unfold cancel_active_session
        rw [hga]
      simp only [h1]
    · have hsingle : st.sessions.filter (fun s => s.user_id = user_id ∧
          s.status ∈ ACTIVE_STATUSES) = [session] :=
        eq_singleton_of_getLast? hga hlen
      have hnone : get_active_session (cancel_active_session st user_id).1
          user_id = none := by
        unfold cancel_active_session
        rw [hga]
        unfold get_active_session
        rw [List.getLast?_eq_none_iff]
        rw [List.filter_eq_nil_iff]
        intro a ha
        rw [cancel_session_sessions] at ha
        rcases List.mem_map.mp ha with ⟨s, hsmem, heq⟩
        rw [← heq]
        by_cases hsid : s.id = session.id
        · rw [if_pos hsid]
          simp only [decide_eq_true_eq, not_and]
          intro h2
          decide
        · rw [if_neg hsid]
          simp only [decide_eq_true_eq, not_and]
          intro hu hact
          have hmem : s ∈ st.sessions.filter (fun t => t.user_id = user_id ∧
              t.status ∈ ACTIVE_STATUSES) :=
            List.mem_filter.mpr ⟨hsmem, by simp [hu, hact]⟩
          rw [hsingle] at hmem
          exact absurd (congrArg SessionRec.id (List.mem_singleton.mp hmem))
            hsid
      set st1 := (cancel_active_session st user_id).1 with hst1
      unfold cancel_active_session
      rw [hnone]

/-- Witness for C9: the demo state has exactly one active photo-less
session, so both cancels behave as stated. -/
theorem C9_cancel_safe_idempotent_witness :
    (get_active_session st0 1 = none →
      cancel_active_session st0 1 = (st0, none)) ∧
    (cancel_active_session demoState 1 =
      (update_session demoState demoSession.id STATUS_CANCELLED
        demoSession.context, some Msg.cancelled)) ∧
    ((cancel_active_session demoState 1).1.photos = demoState.photos) ∧
    (cancel_active_session (cancel_active_session demoState 1).1 1 =
      ((cancel_active_session demoState 1).1, none)) := by
  have hga : get_active_session demoState 1 = some demoSession := by decide
  refine ⟨(C9_cancel_safe_idempotent st0 1).1, ?_, ?_, ?_⟩
  · exact ((C9_cancel_safe_idempotent demoState 1).2.1 demoSession hga).1
  · exact ((C9_cancel_safe_idempotent demoState 1).2.1 demoSession hga).2.1 rfl
  · exact (C9_cancel_safe_idempotent demoState 1).2.2 (by decide)

/-- Helper: among the statuses the machine writes, being in the repository's
active set is exactly not being terminal. -/
theorem status_active_iff {status : String} (h : status ∈ ALL_STATUSES) :
    status ∈ ACTIVE_STATUSES ↔
      (status ≠ STATUS_COMPLETED ∧ status ≠ STATUS_CANCELLED) := by
  fin_cases h <;> decide

/-- Helper: under valid statuses, the repository's active filter and the
claim's active filter coincide. -/
theorem active_filter_eq (st : SvcState) (user_id : ℕ)
    (hvalid : ∀ s ∈ st.sessions, s.status ∈ ALL_STATUSES) :
    st.sessions.filter (fun s => s.user_id = user_id ∧
      s.status ∈ ACTIVE_STATUSES) =
    st.sessions.filter (fun s => s.user_id = user_id ∧
      s.status ≠ STATUS_COMPLETED ∧ s.status ≠ STATUS_CANCELLED) :=
  List.filter_congr (fun s hs => decide_eq_decide.mpr
    (and_congr_right fun _ => status_active_iff (hvalid s hs)))

/-- Helper: the webhook guard fires exactly when a claim-active session
exists (valid statuses assumed). -/
theorem guard_iff_activeCount (st : SvcState) (user_id : ℕ)
    (hvalid : ∀ s ∈ st.sessions, s.status ∈ ALL_STATUSES) :
    has_active_guard st user_id = true ↔ 1 ≤ activeCount st user_id := by
  unfold has_active_guard get_active_session activeCount
  rw [← active_filter_eq st user_id hvalid]
  rcases hlast : (st.sessions.filter (fun s => s.user_id = user_id ∧
      s.status ∈ ACTIVE_STATUSES)).getLast? with _ | t
  · rw [List.getLast?_eq_none_iff.mp hlast]
    simp
  · have htmem : t ∈ st.sessions.filter (fun s =>
        decide (s.user_id = user_id ∧ s.status ∈ ACTIVE_STATUSES)) :=
      List.mem_of_mem_getLast? hlast
    have htpred := (List.mem_filter.mp htmem).2
    have htsess := (List.mem_filter.mp htmem).1
    simp only [decide_eq_true_eq] at htpred
    have hterm := (status_active_iff (hvalid t htsess)).mp htpred.2
    constructor
    · intro _
      have : st.sessions.filter (fun s => s.user_id = user_id ∧
          s.status ∈ ACTIVE_STATUSES) ≠ [] := by
        intro hnil
        rw [hnil] at hlast
        simp at hlast
      rcases List.length_pos.mpr this with hlen
      omega
    · intro _
      have h1 : (t.status == STATUS_COMPLETED) = false :=
        beq_false_of_ne hterm.1
      have h2 : (t.status == STATUS_CANCELLED) = false :=
        beq_false_of_ne hterm.2
      simp only [hlast]
      simp [h1, h2]

/-- Helper: creating a session with a non-terminal status adds one to the
user's active count; sessions of other ids/users are untouched. -/
theorem activeCount_create (st : SvcState) (user_id : ℕ) (photo : Option ℕ)
    (status : String) (context : Ctx)
    (h : status ≠ STATUS_COMPLETED ∧ status ≠ STATUS_CANCELLED) :
    activeCount (create_session st user_id photo status context).1 user_id =
      activeCount st user_id + 1 := by
  unfold activeCount create_session
  simp [List.filter_append, h.1, h.2]

/-- C3. Single active session invariant: if the user has an active
(non-terminal) session, each flow-starting webhook branch (photo,
edit-of-saved-meal, library-add) rejects the request with the
already-active notice and leaves the state unchanged; and each branch
preserves "at most one active session per user". -/
theorem C3_single_active_session (st : SvcState) (user_id : ℕ)
    (hvalid : ∀ s ∈ st.sessions, s.status ∈ ALL_STATUSES) :
    (1 ≤ activeCount st user_id →
      (∀ download vision, webhook_photo_entry st user_id download vision =
        (st, Msg.alreadyActive)) ∧
      (∀ meal_log_id, webhook_edit_entry st user_id meal_log_id =
        (st, some Msg.alreadyActive)) ∧
      webhook_library_entry st user_id = (st, Msg.alreadyActive)) ∧
    (activeCount st user_id ≤ 1 →
      (∀ download vision,
        activeCount (webhook_photo_entry st user_id download vision).1
          user_id ≤ 1) ∧
      (∀ meal_log_id,
        activeCount (webhook_edit_entry st user_id meal_log_id).1
          user_id ≤ 1) ∧
      activeCount (webhook_library_entry st user_id).1 user_id ≤ 1) := by
  constructor
  · intro hcount
    have hg : has_active_guard st user_id = true :=
      (guard_iff_activeCount st user_id hvalid).mpr hcount
    refine ⟨?_, ?_, ?_⟩
    · intro download vision
      unfold webhook_photo_entry
      rw [if_pos hg]
    · intro meal_log_id
      unfold webhook_edit_entry
      rw [if_pos hg]
    · unfold webhook_library_entry
      rw [if_pos hg]
  · intro hcount
    rcases hg : has_active_guard st user_id with _ | _
    · have hzero : activeCount st user_id = 0 := by
        by_contra hnz
        have : 1 ≤ activeCount st user_id := by omega
        rw [← guard_iff_activeCount st user_id hvalid] at this
        rw [hg] at this
        exact Bool.false_ne_true this
      refine ⟨?_, ?_, ?_⟩
      · intro download vision
        unfold webhook_photo_entry
        rw [if_neg (by simp [hg])]
        rcases download with _ | _
        · exact hcount
        rcases vision with _ | items
        · exact hcount
        have : activeCount (start_session st user_id items).1 user_id =
            activeCount st user_id + 1 := by
          unfold start_session
          exact activeCount_create _ user_id _ _ _ (by decide)
        simp only [this, hzero]
        omega
      · intro meal_log_id
        unfold webhook_edit_entry
        rw [if_neg (by simp [hg])]
        unfold start_edit_session
        rcases get_meal_detail st.repo meal_log_id with _ | detail
        · exact hcount
        have : activeCount (create_session st user_id none
            STATUS_EDIT_SELECT_ITEM (Ctx.editInit user_id meal_log_id
              detail)).1 user_id = activeCount st user_id + 1 :=
          activeCount_create _ user_id _ _ _ (by decide)
        simp only [this, hzero]
        omega
      · unfold webhook_library_entry
        rw [if_neg (by simp [hg])]
        unfold start_library_add_session
        have : activeCount (create_session st user_id none
            STATUS_AWAITING_MANUAL_NAME (Ctx.libraryInit user_id)).1
            user_id = activeCount st user_id + 1 :=
          activeCount_create _ user_id _ _ _ (by decide)
        simp only [this, hzero]
        omega
    · refine ⟨?_, ?_, ?_⟩
      · intro download vision
        unfold webhook_photo_entry
        rw [if_pos hg]
        exact hcount
      · intro meal_log_id
        unfold webhook_edit_entry
        rw [if_pos hg]
        exact hcount
      · unfold webhook_library_entry
        rw [if_pos hg]
        exact hcount

/-- Witness for C3: a state with one active session rejects the photo
entry; the empty state keeps the invariant through a library-add entry. -/
theorem C3_single_active_session_witness :
    webhook_photo_entry demoState 1 (.ok ()) (.ok []) =
      (demoState, Msg.alreadyActive) ∧
    activeCount (webhook_library_entry st0 1).1 1 ≤ 1 :=
  ⟨((C3_single_active_session demoState 1 (by decide)).1 (by decide)).1
      (.ok ()) (.ok []),
   ((C3_single_active_session st0 1 (by decide)).2 (by decide)).2.2⟩

/-- C6. User-input errors re-prompt in place: for each text-consuming state,
an unresolvable input (no non-empty comma-separated entries; an empty name;
grams that parse to nothing, i.e. non-numeric or non-positive; a macros line
that is not exactly four numbers) makes the text handler return a re-prompt
with the state unchanged, without raising. -/
theorem C6_user_input_reprompts (P : Providers) (st : SvcState)
    (session : SessionRec) (text : String) :
    (session.status = STATUS_AWAITING_ITEM_LIST → parse_item_list text = [] →
      handle_photo_text P st session text = .ok (st, some Msg.sendCommaList)) ∧
    (session.status = STATUS_AWAITING_MANUAL_NAME →
      String.mk (pyStrip text.data) = "" →
      handle_photo_text P st session text = .ok (st, some Msg.provideName)) ∧
    (session.status = STATUS_AWAITING_MANUAL_SERVING →
      parse_grams text = none →
      handle_photo_text P st session text =
        .ok (st, some Msg.enterServingSize)) ∧
    (session.status = STATUS_AWAITING_MANUAL_MACROS →
      parse_macros text = none →
      handle_photo_text P st session text =
        .ok (st, some Msg.enterMacrosReprompt)) ∧
    (session.status = STATUS_AWAITING_MANUAL_GRAMS →
      parse_grams text = none →
      handle_photo_text P st session text =
        .ok (st, some Msg.replyNumberOfGrams)) ∧
    (session.status = STATUS_AWAITING_EDIT_GRAMS →
      parse_grams text = none →
      handle_photo_text P st session text =
        .ok (st, some Msg.replyWithGrams)) ∧
    (session.status = STATUS_EDIT_ENTER_GRAMS → parse_grams text = none →
      handle_edit_text st session text = (st, some Msg.replyWithGrams)) := by
  refine ⟨?_, ?_, ?_, ?_, ?_, ?_, ?_⟩ <;> intro hst hp <;>
    first
      | simp +decide [handle_photo_text, hst, hp]
      | simp +decide [handle_edit_text, hst, hp]

/-- Witness for C6 at concrete unresolvable inputs in each state. -/
theorem C6_user_input_reprompts_witness :
    (handle_photo_text failingProviders st0
      ⟨3, 1, none, STATUS_AWAITING_ITEM_LIST, chickenCtx⟩ " , , " =
      .ok (st0, some Msg.sendCommaList)) ∧
    (handle_photo_text failingProviders st0
      ⟨3, 1, none, STATUS_AWAITING_MANUAL_NAME, chickenCtx⟩ "   " =
      .ok (st0, some Msg.provideName)) ∧
    (handle_photo_text failingProviders st0
      ⟨3, 1, none, STATUS_AWAITING_MANUAL_SERVING, chickenCtx⟩ "-3" =
      .ok (st0, some Msg.enterServingSize)) ∧
    (handle_photo_text failingProviders st0
      ⟨3, 1, none, STATUS_AWAITING_MANUAL_MACROS, chickenCtx⟩ "1 2 3" =
      .ok (st0, some Msg.enterMacrosReprompt)) ∧
    (handle_photo_text failingProviders st0
      ⟨3, 1, none, STATUS_AWAITING_MANUAL_GRAMS, chickenCtx⟩ "zero" =
      .ok (st0, some Msg.replyNumberOfGrams)) ∧
    (handle_photo_text failingProviders st0
      ⟨3, 1, none, STATUS_AWAITING_EDIT_GRAMS, chickenCtx⟩ "0" =
      .ok (st0, some Msg.replyWithGrams)) ∧
    (handle_edit_text st0
      ⟨3, 1, none, STATUS_EDIT_ENTER_GRAMS, chickenCtx⟩ "abc" =
      (st0, some Msg.replyWithGrams)) :=
  ⟨(C6_user_input_reprompts failingProviders st0 _ _).1 rfl (by decide),
   (C6_user_input_reprompts failingProviders st0 _ _).2.1 rfl (by decide),
   (C6_user_input_reprompts failingProviders st0 _ _).2.2.1 rfl (by decide),
   (C6_user_input_reprompts failingProviders st0 _ _).2.2.2.1 rfl (by decide),
   (C6_user_input_reprompts failingProviders st0 _ _).2.2.2.2.1 rfl
     (by decide),
   (C6_user_input_reprompts failingProviders st0 _ _).2.2.2.2.2.1 rfl
     (by decide),
   (C6_user_input_reprompts failingProviders st0 _ _).2.2.2.2.2.2 rfl
     (by decide)⟩

/-- C7 counterexample: the input "0.5" parses (float 0.5 is positive), is
truncated by `int()` to 0, and the transition stores grams 0 on the current
item instead of rejecting — refuting "the parse never stores a zero or
negative grams value". -/
theorem C7_manual_grams_counterexample :
    parse_grams "0.5" = some 0 ∧
    ∃ st' m,
      handle_photo_text failingProviders gramsState gramsSession "0.5" =
        .ok (st', some m) ∧
      m ≠ Msg.replyNumberOfGrams ∧
      ∃ s ∈ st'.sessions, s.id = gramsSession.id ∧
        ∃ item ∈ s.context.items, item.grams = some 0 := by
  refine ⟨by decide, _, _, rfl, by decide, ?_⟩
  decide

/-- C7 (amended). In AWAITING_MANUAL_GRAMS the transition either rejects the
input (re-prompt, no state change) or records on the current item the
`int()` truncation of the positive parsed value — a nonnegative integer
(zero exactly for values below one) — and hands over to the
advance-item-cursor step; it never stores a negative grams value. -/
theorem C7_manual_grams_amended (P : Providers) (st : SvcState)
    (session : SessionRec) (text : String)
    (hst : session.status = STATUS_AWAITING_MANUAL_GRAMS) :
    (parse_grams text = none →
      handle_photo_text P st session text =
        .ok (st, some Msg.replyNumberOfGrams)) ∧
    (∀ grams, parse_grams text = some grams →
      0 ≤ grams ∧
      (∀ i : ℕ, session.context.current_index = (i : ℤ) →
        ∀ h : i < session.context.items.length,
        (record_current_grams session.context grams).items.get? i =
          some { session.context.items.get ⟨i, h⟩ with grams := some grams }) ∧
      handle_photo_text P st session text =
        (match advance_or_summarize P st session.id
            (record_current_grams session.context grams) with
         | .error e => .error e
         | .ok r => .ok (r.1, some r.2))) := by
  constructor
  · intro hp
    simp +decide [handle_photo_text, hst, hp]
  · intro grams hp
    refine ⟨?_, ?_, ?_⟩
    · unfold parse_grams at hp
      rcases hv : pyFloatChars (pyStrip (replaceFrom "g".data []
          (replaceFrom "grams".data [] (pyLower (pyStrip text.data))))) with
        _ | v
      · simp only [hv] at hp
        exact absurd hp (by simp)
      · simp only [hv] at hp
        by_cases hpos : 0 < v
        · rw [if_pos hpos] at hp
          obtain rfl := Option.some.inj hp
          exact Int.le_floor.mpr (by exact_mod_cast le_of_lt hpos)
        · rw [if_neg hpos] at hp
          simp at hp
    · intro i hidx h
      unfold record_current_grams
      rw [if_pos ⟨by omega, by rw [hidx]; exact_mod_cast h⟩]
      have htn : session.context.current_index.toNat = i := by
        rw [hidx]
        exact Int.toNat_natCast i
      simp only [htn, setItemAt]
      have hlen : i < (session.context.items.mapIdx (fun j it =>
          if j = i then { it with grams := some grams } else it)).length := by
        simpa using h
      rw [List.get?_eq_get hlen, List.get_mapIdx _ _ i h]
      rw [if_pos rfl]
    · simp +decide [handle_photo_text, hst, hp]

/-- Witness for the amended C7: a rejecting input and the "0.5" input that
stores zero, at a concrete session. -/
theorem C7_manual_grams_amended_witness :
    (handle_photo_text failingProviders gramsState gramsSession "abc" =
      .ok (gramsState, some Msg.replyNumberOfGrams)) ∧
    (0 ≤ (0 : ℤ) ∧
      (∀ i : ℕ, gramsSession.context.current_index = (i : ℤ) →
        ∀ h : i < gramsSession.context.items.length,
        (record_current_grams gramsSession.context 0).items.get? i =
          some { gramsSession.context.items.get ⟨i, h⟩ with
                 grams := some 0 }) ∧
      handle_photo_text failingProviders gramsState gramsSession "0.5" =
        (match advance_or_summarize failingProviders gramsState
            gramsSession.id (record_current_grams gramsSession.context 0) with
         | .error e => .error e
         | .ok r => .ok (r.1, some r.2))) :=
  ⟨(C7_manual_grams_amended failingProviders gramsState gramsSession "abc"
      rfl).1 (by decide),
   (C7_manual_grams_amended failingProviders gramsState gramsSession "0.5"
      rfl).2 0 (by decide)⟩

/-- C8 counterexample: with both bounds present but the high bound 0, the
code records the low bound (100 g), not the midpoint of the range (50 g) —
refuting "records the midpoint whenever both bounds are present". -/
theorem C8_use_estimate_counterexample :
    estimate_grams ⟨some "Rice", none, none, some 100, some 0, none, false,
      none⟩ = some 100 ∧
    ((100 : ℚ) + 0) / 2 = 50 ∧ (100 : ℤ) ≠ 50 := by
  refine ⟨?_, by norm_num, by decide⟩
  norm_num [estimate_grams, pyRound]

/-- C8 (amended). "Use estimate": when the high bound is present and
positive, the action records the banker's-rounded midpoint of the gram
range on the current item and hands over to the advance-item-cursor step;
when the low bound is positive and the high bound is missing or not
positive, it records the rounded low bound alone; when no estimate is
available it records nothing and moves the session to the manual-grams
prompt. Concretely, low=100 and high=200 yield 150 grams. -/
theorem C8_use_estimate_amended (P : Providers) (st : SvcState)
    (session_id : ℕ) (context : Ctx) :
    (∀ low high, (current_item context).estimated_grams_low = some low →
      (current_item context).estimated_grams_high = some high → 0 < high →
      apply_estimate P st session_id context =
        advance_or_summarize P st session_id
          (record_current_grams context (pyRound ((low + high) / 2)))) ∧
    (∀ low, (current_item context).estimated_grams_low = some low →
      0 < low →
      ((current_item context).estimated_grams_high = none ∨
       (∃ high, (current_item context).estimated_grams_high = some high ∧
         ¬ 0 < high)) →
      apply_estimate P st session_id context =
        advance_or_summarize P st session_id
          (record_current_grams context (pyRound low))) ∧
    (estimate_grams (current_item context) = none →
      apply_estimate P st session_id context =
        .ok (update_session st session_id STATUS_AWAITING_MANUAL_GRAMS
               context, Msg.enterGramsForItem)) ∧
    estimate_grams ⟨some "Chicken", none, none, some 100, some 200, none,
      false, none⟩ = some 150 := by
  refine ⟨?_, ?_, ?_, by norm_num [estimate_grams, pyRound]⟩
  · intro low high hlow hhigh hpos
    have hest : estimate_grams (current_item context) =
        some (pyRound ((low + high) / 2)) := by
      unfold estimate_grams
      rw [hlow, hhigh]
      simp [hpos]
    unfold apply_estimate
    rw [hest]
  · intro low hlow hpos hhigh
    have hest : estimate_grams (current_item context) =
        some (pyRound low) := by
      unfold estimate_grams
      rcases hhigh with hnone | ⟨high, hsome, hneg⟩
      · rw [hlow, hnone]
        simp [hpos]
      · rw [hlow, hsome]
        simp [hneg, hpos]
    unfold apply_estimate
    rw [hest]
  · intro hest
    unfold apply_estimate
    rw [hest]

/-- Witness for the amended C8: the chicken item (range 100–200) records
the midpoint; an estimate-free item falls back to the manual prompt. -/
theorem C8_use_estimate_amended_witness :
    (apply_estimate failingProviders chickenState 3 chickenCtx =
      advance_or_summarize failingProviders chickenState 3
        (record_current_grams chickenCtx (pyRound (((100 : ℚ) + 200) / 2)))) ∧
    (apply_estimate failingProviders st0 3 (Ctx.photoInit 1
        [ItemSpec.ofLabel "tea"]) =
      .ok (update_session st0 3 STATUS_AWAITING_MANUAL_GRAMS
             (Ctx.photoInit 1 [ItemSpec.ofLabel "tea"]),
           Msg.enterGramsForItem)) :=
  ⟨(C8_use_estimate_amended failingProviders chickenState 3 chickenCtx).1
      100 200 rfl rfl (by norm_num),
   (C8_use_estimate_amended failingProviders st0 3 _).2.2.1 (by decide)⟩

/-- Helper: looking up the edited id after `update_meal_item` yields the
first matching row with the new grams/macros written. -/
theorem get_meal_item_update (repo : MealRepoState) (meal_item_id : ℕ)
    (grams : ℚ) (macros : MacroProfile) :
    get_meal_item (update_meal_item repo meal_item_id grams macros)
        meal_item_id =
      (get_meal_item repo meal_item_id).map (fun it =>
        { it with
          grams := grams
          calories := macros.calories
          protein_g := macros.protein_g
          fat_g := macros.fat_g
          carbs_g := macros.carbs_g }) := by
  show (repo.items.map _).find? _ = (repo.items.find? _).map _
  induction repo.items with
  | nil => rfl
  | cons a t ih =>
    rw [List.map_cons]
    by_cases h : a.id = meal_item_id
    · rw [if_pos h, List.find?_cons_of_pos _ (by simpa using h),
        List.find?_cons_of_pos _ (by simpa using h)]
      rfl
    · rw [if_neg h, List.find?_cons_of_neg _ (by simpa using h),
        List.find?_cons_of_neg _ (by simpa using h)]
      exact ih

/-- Helper: looking up the meal log after `update_meal_log_totals` yields
the row with the new totals written. -/
theorem get_meal_log_update (repo : MealRepoState) (meal_log_id : ℕ)
    (totals : MacroProfile) :
    get_meal_log (update_meal_log_totals repo meal_log_id totals)
        meal_log_id =
      (get_meal_log repo meal_log_id).map (fun log =>
        { log with
          total_calories := totals.calories
          total_protein_g := totals.protein_g
          total_fat_g := totals.fat_g
          total_carbs_g := totals.carbs_g }) := by
  show (repo.logs.map _).find? _ = (repo.logs.find? _).map _
  induction repo.logs with
  | nil => rfl
  | cons a t ih =>
    rw [List.map_cons]
    by_cases h : a.meal_id = meal_log_id
    · rw [if_pos h, List.find?_cons_of_pos _ (by simpa using h),
        List.find?_cons_of_pos _ (by simpa using h)]
      rfl
    · rw [if_neg h, List.find?_cons_of_neg _ (by simpa using h),
        List.find?_cons_of_neg _ (by simpa using h)]
      exact ih

/-- Helper: what `update_meal_item_grams` produces when the item exists. -/
theorem update_meal_item_grams_eq (repo : MealRepoState) (meal_item_id : ℕ)
    (grams : ℚ) (item : MealItemRecord)
    (hitem : get_meal_item repo meal_item_id = some item) :
    update_meal_item_grams repo meal_item_id grams =
      (match get_meal_log (update_meal_log_totals
          (update_meal_item repo meal_item_id grams
            (snapshot_portion item grams))
          item.meal_log_id
          (sum_totals (list_meal_items
            (update_meal_item repo meal_item_id grams
              (snapshot_portion item grams)) item.meal_log_id)))
        item.meal_log_id with
       | none =>
         (update_meal_log_totals
           (update_meal_item repo meal_item_id grams
             (snapshot_portion item grams))
           item.meal_log_id
           (sum_totals (list_meal_items
             (update_meal_item repo meal_item_id grams
               (snapshot_portion item grams)) item.meal_log_id)), none)
       | some log =>
         (update_meal_log_totals
           (update_meal_item repo meal_item_id grams
             (snapshot_portion item grams))
           item.meal_log_id
           (sum_totals (list_meal_items
             (update_meal_item repo meal_item_id grams
               (snapshot_portion item grams)) item.meal_log_id)),
          some ⟨log.meal_id, log.logged_at,
            (sum_totals (list_meal_items
              (update_meal_item repo meal_item_id grams
                (snapshot_portion item grams)) item.meal_log_id)).calories,
            (sum_totals (list_meal_items
              (update_meal_item repo meal_item_id grams
                (snapshot_portion item grams)) item.meal_log_id)).protein_g,
            (sum_totals (list_meal_items
              (update_meal_item repo meal_item_id grams
                (snapshot_portion item grams)) item.meal_log_id)).fat_g,
            (sum_totals (list_meal_items
              (update_meal_item repo meal_item_id grams
                (snapshot_portion item grams)) item.meal_log_id)).carbs_g,
            list_meal_items
              (update_meal_item repo meal_item_id grams
                (snapshot_portion item grams)) item.meal_log_id⟩)) := by
  unfold update_meal_item_grams
  rw [hitem]
  rfl

/-- Helper: the repository state `update_meal_item_grams` leaves behind
when the item exists. -/
theorem update_meal_item_grams_fst (repo : MealRepoState) (meal_item_id : ℕ)
    (grams : ℚ) (item : MealItemRecord)
    (hitem : get_meal_item repo meal_item_id = some item) :
    (update_meal_item_grams repo meal_item_id grams).1 =
      update_meal_log_totals
        (update_meal_item repo meal_item_id grams
          (snapshot_portion item grams))
        item.meal_log_id
        (sum_totals (list_meal_items
          (update_meal_item repo meal_item_id grams
            (snapshot_portion item grams)) item.meal_log_id)) := by
  rw [update_meal_item_grams_eq repo meal_item_id grams item hitem]
  rcases get_meal_log (update_meal_log_totals
      (update_meal_item repo meal_item_id grams (snapshot_portion item grams))
      item.meal_log_id
      (sum_totals (list_meal_items
        (update_meal_item repo meal_item_id grams
          (snapshot_portion item grams)) item.meal_log_id)))
      item.meal_log_id with _ | log
  · rfl
  · rfl

/-- Helper: the updated meal detail, when returned, contains a row for the
edited item id, so the after-snapshot of the audit event exists. -/
theorem detail_after_isSome (repo : MealRepoState) (meal_item_id : ℕ)
    (grams : ℚ) (item : MealItemRecord) (detail : MealLogDetail)
    (hitem : get_meal_item repo meal_item_id = some item)
    (hupd : (update_meal_item_grams repo meal_item_id grams).2 = some detail) :
    (detail_item_snapshot detail meal_item_id).isSome := by
  rw [update_meal_item_grams_eq repo meal_item_id grams item hitem] at hupd
  rcases hlog : get_meal_log (update_meal_log_totals
      (update_meal_item repo meal_item_id grams (snapshot_portion item grams))
      item.meal_log_id
      (sum_totals (list_meal_items
        (update_meal_item repo meal_item_id grams
          (snapshot_portion item grams)) item.meal_log_id)))
      item.meal_log_id with _ | log
  · simp only [hlog] at hupd
    exact absurd hupd (by simp)
  · simp only [hlog] at hupd
    obtain rfl := (Option.some.inj hupd).symm
    have hmem : item ∈ repo.items := List.mem_of_find?_eq_some hitem
    have hid : item.id = meal_item_id := by
      have := List.find?_some hitem
      simpa using this
    have hmem2 : updated_meal_item item grams ∈ list_meal_items
        (update_meal_item repo meal_item_id grams
          (snapshot_portion item grams)) item.meal_log_id := by
      apply List.mem_filter.mpr
      constructor
      · apply List.mem_map.mpr
        refine ⟨item, hmem, ?_⟩
        rw [if_pos hid]
        rfl
      · simp [updated_meal_item]
    show (((list_meal_items
        (update_meal_item repo meal_item_id grams
          (snapshot_portion item grams)) item.meal_log_id).find?
        (fun it => it.id = meal_item_id)).map _).isSome = true
    rcases hf : (list_meal_items
        (update_meal_item repo meal_item_id grams
          (snapshot_portion item grams)) item.meal_log_id).find?
        (fun it => it.id = meal_item_id) with _ | found
    · have := List.find?_eq_none.mp hf (updated_meal_item item grams) hmem2
      simp [updated_meal_item, hid] at this
    · rw [hf]
      rfl

/-- C2. Single-item gram edit uses the frozen snapshot: the edited row is
rewritten with the new grams and macros recomputed from its stored
nutrition snapshot (no nutrition provider takes part — the function takes
none); the meal's totals are re-summed over all of its items and persisted;
the returned detail carries exactly those totals and items; and the edit
text path completes the session and records an update_grams audit event
holding the before/after snapshots (name, grams and the four macros). -/
theorem C2_single_item_edit :
    (∀ repo meal_item_id grams item,
      get_meal_item repo meal_item_id = some item →
      get_meal_item (update_meal_item_grams repo meal_item_id grams).1
          meal_item_id = some (updated_meal_item item grams)) ∧
    (∀ repo meal_item_id grams item detail,
      get_meal_item repo meal_item_id = some item →
      (update_meal_item_grams repo meal_item_id grams).2 = some detail →
      detail.items = list_meal_items
        (update_meal_item_grams repo meal_item_id grams).1
        item.meal_log_id ∧
      detail.total_calories = (sum_totals detail.items).calories ∧
      detail.total_protein_g = (sum_totals detail.items).protein_g ∧
      detail.total_fat_g = (sum_totals detail.items).fat_g ∧
      detail.total_carbs_g = (sum_totals detail.items).carbs_g ∧
      (∀ log, get_meal_log
          (update_meal_item_grams repo meal_item_id grams).1
          item.meal_log_id = some log →
        log.total_calories = detail.total_calories ∧
        log.total_protein_g = detail.total_protein_g ∧
        log.total_fat_g = detail.total_fat_g ∧
        log.total_carbs_g = detail.total_carbs_g)) ∧
    (∀ st session text grams raw meal_item_id repo1 detail item,
      session.status = STATUS_EDIT_ENTER_GRAMS →
      parse_grams text = some grams →
      session.context.edit_item_id = some raw →
      natFromString raw = some meal_item_id →
      get_meal_item st.repo meal_item_id = some item →
      update_meal_item_grams st.repo meal_item_id (grams : ℚ) =
        (repo1, some detail) →
      handle_edit_text st session text =
        (record_event
          (update_session { st with repo := repo1 } session.id
            STATUS_COMPLETED session.context)
          ⟨session.user_id, "meal_item", meal_item_id, "update_grams",
           edit_item_snapshot session.context meal_item_id,
           detail_item_snapshot detail meal_item_id⟩,
         some (Msg.mealUpdated detail))) := by
  refine ⟨?_, ?_, ?_⟩
  · intro repo meal_item_id grams item hitem
    rw [update_meal_item_grams_fst repo meal_item_id grams item hitem]
    show get_meal_item (update_meal_item repo meal_item_id grams
      (snapshot_portion item grams)) meal_item_id = _
    rw [get_meal_item_update, hitem]
    rfl
  · intro repo meal_item_id grams item detail hitem hupd
    rw [update_meal_item_grams_eq repo meal_item_id grams item hitem] at hupd
    rcases hlog : get_meal_log (update_meal_log_totals
        (update_meal_item repo meal_item_id grams
          (snapshot_portion item grams))
        item.meal_log_id
        (sum_totals (list_meal_items
          (update_meal_item repo meal_item_id grams
            (snapshot_portion item grams)) item.meal_log_id)))
        item.meal_log_id with _ | log
    · simp only [hlog] at hupd
      exact absurd hupd (by simp)
    · simp only [hlog] at hupd
      obtain rfl := (Option.some.inj hupd).symm
      rw [update_meal_item_grams_fst repo meal_item_id grams item hitem]
      refine ⟨rfl, rfl, rfl, rfl, rfl, ?_⟩
      intro log2 hlog2
      rw [get_meal_log_update] at hlog2
      rcases horig : get_meal_log (update_meal_item repo meal_item_id grams
          (snapshot_portion item grams)) item.meal_log_id with _ | orig
      · rw [horig] at hlog2
        exact absurd hlog2 (by simp)
      · rw [horig] at hlog2
        obtain rfl := (Option.some.inj hlog2).symm
        exact ⟨rfl, rfl, rfl, rfl⟩
  · intro st session text grams raw meal_item_id repo1 detail item hst hp
      hraw hnat hitem hupd
    have hafter : (detail_item_snapshot detail meal_item_id).isSome := by
      refine detail_after_isSome st.repo meal_item_id (grams : ℚ) item detail
        hitem ?_
      rw [hupd]
    unfold handle_edit_text
    rw [hst]
    simp only [if_neg (show ¬ (STATUS_EDIT_ENTER_GRAMS ≠
      STATUS_EDIT_ENTER_GRAMS) by simp), hp, hraw, hnat, hupd]
    simp only [if_pos (Or.inr hafter)]

/-- Witness for C2: the demo meal (one item, 100 g, 130 kcal frozen at
per-100g) edited to 200 g yields total 260 kcal and an audit event whose
before/after snapshots carry name, grams and the four macros. -/
theorem C2_single_item_edit_witness :
    update_meal_item_grams demoRepo 10 ((200 : ℤ) : ℚ) =
      (demoRepoUpdated, some demoDetailUpdated) ∧
    demoDetailUpdated.total_calories = 260 ∧
    edit_item_snapshot demoSession.context 10 =
      some ⟨some "Chicken", some 100, some 130, some 5, some 3, some 27⟩ ∧
    detail_item_snapshot demoDetailUpdated 10 =
      some ⟨some "Chicken", some 200, some 260, some 10, some 6, some 54⟩ ∧
    handle_edit_text demoState demoSession "200" =
      (record_event
        (update_session { demoState with repo := demoRepoUpdated }
          demoSession.id STATUS_COMPLETED demoSession.context)
        ⟨1, "meal_item", 10, "update_grams",
         edit_item_snapshot demoSession.context 10,
         detail_item_snapshot demoDetailUpdated 10⟩,
       some (Msg.mealUpdated demoDetailUpdated)) := by
  have hupd : update_meal_item_grams demoRepo 10 ((200 : ℤ) : ℚ) =
      (demoRepoUpdated, some demoDetailUpdated) := by
    rw [update_meal_item_grams_eq demoRepo 10 ((200 : ℤ) : ℚ) demoItem rfl]
    have hport : snapshot_portion demoItem ((200 : ℤ) : ℚ) =
        ⟨260, 10, 6, 54⟩ := by
      norm_num [snapshot_portion, demoItem, demoSnapshot,
        macros_from_snapshot, compute_portion_macros, orStr, optRatTruthy]
    rw [hport]
    norm_num [update_meal_item, demoRepo, demoItem, demoSnapshot,
      list_meal_items, sum_totals, update_meal_log_totals, get_meal_log,
      demoLog, MacroProfile.zero, demoRepoUpdated, demoDetailUpdated,
      demoItemUpdated, demoLogUpdated]
  refine ⟨hupd, by norm_num [demoDetailUpdated], by decide, by decide, ?_⟩
  exact C2_single_item_edit.2.2 demoState demoSession "200" 200 "10" 10
    demoRepoUpdated demoDetailUpdated demoItem rfl (by decide) rfl
    (by decide) rfl hupd

end NutritionTracker
